import Mathlib

/-!
Verification of the schema-diff and migration-ordering engine of the
`dbdump` PostgreSQL schema comparison tool.

The TypeScript source is shallowly embedded: JavaScript `Map`s become
association lists (`List (String × α)`) with JS `Map` insertion semantics,
`number | null` fields become `Option Int`, `string | null` becomes
`Option String`, and JS truthiness is modelled explicitly (`0`, `""`,
`null` are falsy; arrays are always truthy).
-/

namespace DbDump

/-- JS truthiness of a `number | null` value: `null` and `0` are falsy. -/
def truthyNum : Option Int → Bool
  | Option.none => false
  | Option.some n => n != 0

/-- JS truthiness of a `string | null | undefined` value: absent and `""` are falsy. -/
def truthyStr : Option String → Bool
  | Option.none => false
  | Option.some s => s != ""

/-- JS numeric coercion of `number | null` (`null` coerces to `0`). -/
def jsNum : Option Int → Int
  | Option.none => 0
  | Option.some n => n

/-- Render `x || "none"` for a `number | null` template-string slot. -/
def numOrNone : Option Int → String
  | Option.none => "none"
  | Option.some n => if n = 0 then "none" else toString n

/-- Render `x || "none"` for a `string | null` template-string slot. -/
def strOrNone : Option String → String
  | Option.none => "none"
  | Option.some s => if s = "" then "none" else s

/-- One insertion into a JS `Map` modelled as an association list:
overwrite the value when the key is present, append otherwise. -/
def jsMapInsert (m : List (String × α)) (kv : String × α) : List (String × α) :=
  if m.any (fun p => p.1 == kv.1) then
    m.map (fun p => if p.1 == kv.1 then (p.1, kv.2) else p)
  else
    m ++ [kv]

/-- `new Map(entries)`: left-to-right insertion with key overwrite. -/
def jsMapOfList (l : List (String × α)) : List (String × α) :=
  l.foldl jsMapInsert []

/-- `map.has(k)`. -/
def jsMapHas (m : List (String × α)) (k : String) : Bool :=
  m.any (fun p => p.1 == k)

/-- `map.get(k)` (keys are unique in a built map, so first match suffices). -/
def jsMapGet (m : List (String × α)) (k : String) : Option α :=
  (m.find? (fun p => p.1 == k)).map (fun p => p.2)

/-- Insertion into a JS `Set` modelled as a duplicate-free list. -/
def setAdd (s : List String) (x : String) : List String :=
  if s.contains x then s else s ++ [x]

/-- `[...new Set(l)]`: deduplicate preserving first occurrences. -/
def listDedup (l : List String) : List String :=
  l.foldl setAdd []

/-- Lexicographic code-unit comparison of character lists (the order JS
`Array.prototype.sort()` applies to strings). -/
def charListLe : List Char → List Char → Bool
  | [], _ => true
  | _ :: _, [] => false
  | a :: as, b :: bs =>
    if a.toNat < b.toNat then true
    else if b.toNat < a.toNat then false
    else charListLe as bs

/-- Lexicographic string comparison used by the modelled JS sort. -/
def strLe (a b : String) : Bool :=
  charListLe a.data b.data

/-- Insertion step of the string sort used to model JS `Array.prototype.sort()`. -/
def insertSorted (x : String) : List String → List String
  | [] => [x]
  | y :: ys => if strLe x y then x :: y :: ys else y :: insertSorted x ys

/-- Deterministic lexicographic string sort modelling `[...arr].sort()`. -/
def sortStrings (l : List String) : List String :=
  l.foldr insertSorted []

/-- `[...arr].sort().join(',')`, the canonical form used for column-set comparison. -/
def sortedJoin (l : List String) : String :=
  String.intercalate "," (sortStrings l)

/-- Helper for `String.prototype.includes`: does `needle` occur in `hay`? -/
def listContainsSub (hay needle : List Char) : Bool :=
  match hay with
  | [] => needle.isEmpty
  | _ :: rest => needle.isPrefixOf hay || listContainsSub rest needle

/-- `hay.includes(needle)` on strings. -/
def strIncludes (hay needle : String) : Bool :=
  listContainsSub hay.data needle.data

-- ============================================================
-- Data model (src/types.ts)
-- ============================================================

/-- `ColumnInfo` of src/types.ts. -/
structure ColumnInfo where
  column_name : String
  data_type : String
  is_nullable : String
  column_default : Option String
  character_maximum_length : Option Int
  numeric_precision : Option Int
  numeric_scale : Option Int
  deriving DecidableEq, Repr, Inhabited

/-- `ColumnDifference` of src/types.ts. -/
structure ColumnDifference where
  column_name : String
  source : ColumnInfo
  target : ColumnInfo
  differences : List String
  isCritical : Bool
  deriving DecidableEq, Repr, Inhabited

/-- `IndexInfo` of src/types.ts. -/
structure IndexInfo where
  index_name : String
  is_unique : Bool
  is_primary : Bool
  columns : List String
  index_type : String
  deriving DecidableEq, Repr, Inhabited

/-- `ConstraintInfo` of src/types.ts (`check_clause` and `columns` are optional). -/
structure ConstraintInfo where
  constraint_name : String
  constraint_type : String
  check_clause : Option String
  columns : Option (List String)
  deriving DecidableEq, Repr, Inhabited

/-- `ForeignKeyInfo` of src/types.ts. -/
structure ForeignKeyInfo where
  constraint_name : String
  column_name : String
  foreign_table_schema : String
  foreign_table_name : String
  foreign_column_name : String
  on_delete : String
  on_update : String
  deriving DecidableEq, Repr, Inhabited

/-- `SequenceInfo` of src/types.ts. -/
structure SequenceInfo where
  sequence_schema : String
  sequence_name : String
  data_type : String
  start_value : String
  increment : String
  max_value : String
  min_value : String
  cycle : Bool
  deriving DecidableEq, Repr, Inhabited

/-- `TriggerInfo` of src/types.ts. -/
structure TriggerInfo where
  trigger_name : String
  event_manipulation : String
  action_timing : String
  action_statement : String
  deriving DecidableEq, Repr, Inhabited

/-- `PolicyInfo` of src/types.ts. -/
structure PolicyInfo where
  policy_name : String
  permissive : String
  roles : List String
  cmd : String
  qual : Option String
  with_check : Option String
  deriving DecidableEq, Repr, Inhabited

/-- `EnumTypeInfo` of src/types.ts. -/
structure EnumTypeInfo where
  schema : String
  name : String
  values : List String
  deriving DecidableEq, Repr, Inhabited

/-- `ExtensionInfo` of src/types.ts. -/
structure ExtensionInfo where
  name : String
  schema : String
  deriving DecidableEq, Repr, Inhabited

/-- `FunctionInfo` of src/types.ts. -/
structure FunctionInfo where
  schema : String
  name : String
  language : String
  definition : String
  return_type : String
  argument_types : String
  deriving DecidableEq, Repr, Inhabited

/-- `TableInfo` of src/types.ts. -/
structure TableInfo where
  table_name : String
  table_schema : String
  columns : List ColumnInfo
  indexes : List IndexInfo
  foreignKeys : List ForeignKeyInfo
  constraints : List ConstraintInfo
  sequences : List SequenceInfo
  triggers : List TriggerInfo
  policies : List PolicyInfo
  deriving DecidableEq, Repr, Inhabited

/-- `SchemaMetadata` of src/types.ts; `tables` models the entries of the
`Map<string, TableInfo>` keyed by `"schema.table"`. -/
structure SchemaMetadata where
  tables : List (String × TableInfo)
  enums : List EnumTypeInfo
  extensions : List ExtensionInfo
  functions : List FunctionInfo
  deriving DecidableEq, Repr, Inhabited

/-- `TableReference` of src/types.ts. -/
structure TableReference where
  schema : String
  table : String
  deriving DecidableEq, Repr, Inhabited

/-- `TableDiff` of src/types.ts. -/
structure TableDiff where
  table_name : String
  table_schema : String
  columnsOnlyInSource : List ColumnInfo
  columnsOnlyInTarget : List ColumnInfo
  columnsWithDifferences : List ColumnDifference
  indexesOnlyInSource : List IndexInfo
  indexesOnlyInTarget : List IndexInfo
  foreignKeysOnlyInSource : List ForeignKeyInfo
  foreignKeysOnlyInTarget : List ForeignKeyInfo
  constraintsOnlyInSource : List ConstraintInfo
  constraintsOnlyInTarget : List ConstraintInfo
  deriving DecidableEq, Repr, Inhabited

/-- `SchemaDiff` of src/types.ts. -/
structure SchemaDiff where
  tablesOnlyInSource : List TableReference
  tablesOnlyInTarget : List TableReference
  tablesInBoth : List TableDiff
  deriving DecidableEq, Repr, Inhabited

/-- `FilterOptions` of src/types.ts. -/
structure FilterOptions where
  onlyMissingTables : Bool
  onlyColumnDiffs : Bool
  criticalOnly : Bool
  deriving DecidableEq, Repr, Inhabited

-- ============================================================
-- src/comparison.ts : compareColumns
-- ============================================================

/-- Result record of `compareColumns`. -/
structure ColumnCompareResult where
  differences : List String
  isCritical : Bool
  deriving DecidableEq, Repr, Inhabited

/-- `compareColumns` of src/comparison.ts: attribute-by-attribute comparison
of two same-named columns, collecting difference strings and a criticality
flag; returns `none` when no attribute differs.  The nested criticality
`if`s of the source are flattened into conjunctions. -/
def compareColumns (source target : ColumnInfo) : Option ColumnCompareResult :=
  let differences : List String := []
  let isCritical : Bool := false
  let differences := if source.data_type != target.data_type then
      differences ++ ["type: " ++ source.data_type ++ " vs " ++ target.data_type]
    else differences
  let isCritical := if source.data_type != target.data_type then true else isCritical
  let differences := if source.is_nullable != target.is_nullable then
      differences ++ ["nullable: " ++ source.is_nullable ++ " vs " ++ target.is_nullable]
    else differences
  let isCritical := if source.is_nullable != target.is_nullable &&
      source.is_nullable == "YES" && target.is_nullable == "NO" then true else isCritical
  let differences := if source.column_default != target.column_default then
      differences ++ ["default: " ++ strOrNone source.column_default ++ " vs " ++
        strOrNone target.column_default]
    else differences
  let differences := if source.character_maximum_length != target.character_maximum_length then
      differences ++ ["max_length: " ++ numOrNone source.character_maximum_length ++ " vs " ++
        numOrNone target.character_maximum_length]
    else differences
  let isCritical := if source.character_maximum_length != target.character_maximum_length &&
      truthyNum source.character_maximum_length && truthyNum target.character_maximum_length &&
      jsNum source.character_maximum_length > jsNum target.character_maximum_length then true
    else isCritical
  let differences := if source.numeric_precision != target.numeric_precision then
      differences ++ ["precision: " ++ numOrNone source.numeric_precision ++ " vs " ++
        numOrNone target.numeric_precision]
    else differences
  let differences := if source.numeric_scale != target.numeric_scale then
      differences ++ ["scale: " ++ numOrNone source.numeric_scale ++ " vs " ++
        numOrNone target.numeric_scale]
    else differences
  if differences.length > 0 then
    Option.some { differences := differences, isCritical := isCritical }
  else
    Option.none

-- ============================================================
-- Migration generator: health metrics, transaction wrapping,
-- rollback tables stage, diff filters
-- ============================================================

/-- Result record of `calculateHealthMetrics` (score, issue strings, severity band). -/
structure HealthSummary where
  score : Int
  issues : List String
  severity : String
  deriving DecidableEq, Repr, Inhabited

/-- `calculateHealthMetrics` of the migration generator: point-deduction health
score over a `SchemaDiff` with fixed weights and severity bands.  The source's
accumulation loop over `tablesInBoth` is translated to sums over mapped lists. -/
def calculateHealthMetrics (diff : SchemaDiff) : HealthSummary :=
  let missingTableCount : Nat := diff.tablesOnlyInSource.length + diff.tablesOnlyInTarget.length
  let score : Int := 100
  let score := score - (missingTableCount : Int) * 10
  let issues : List String :=
    if missingTableCount > 0 then
      [toString missingTableCount ++ " table(s) exist in only one database"]
    else []
  let criticalDiffs : Nat :=
    (diff.tablesInBoth.map
      (fun t => (t.columnsWithDifferences.filter (fun c => c.isCritical)).length)).sum
  let nonCriticalDiffs : Nat :=
    (diff.tablesInBoth.map
      (fun t => (t.columnsWithDifferences.filter (fun c => !c.isCritical)).length)).sum
  let missingColumns : Nat :=
    (diff.tablesInBoth.map
      (fun t => t.columnsOnlyInSource.length + t.columnsOnlyInTarget.length)).sum
  let score := score - (criticalDiffs : Int) * 8
  let score := score - (nonCriticalDiffs : Int) * 3
  let score := score - (missingColumns : Int) * 5
  let issues := issues ++
    (if criticalDiffs > 0 then
      [toString criticalDiffs ++
        " critical column difference(s) detected (type changes, nullability changes)"]
     else []) ++
    (if missingColumns > 0 then
      [toString missingColumns ++ " column(s) missing in one database"]
     else []) ++
    (if nonCriticalDiffs > 0 then
      [toString nonCriticalDiffs ++ " non-critical column difference(s) (defaults, lengths, etc.)"]
     else [])
  let score := max 0 score
  let severity : String :=
    if score ≥ 90 then "healthy"
    else if score ≥ 70 then "minor"
    else if score ≥ 40 then "moderate"
    else "critical"
  { score := score, issues := issues, severity := severity }

/-- Transaction scope options of the migration generator. -/
inductive TransactionScope where
  | none
  | perFile
  | single
  deriving DecidableEq, Repr, Inhabited

/-- `wrapInTransaction` of the migration generator: wraps one stage's SQL text
according to the transaction scope; in `single` scope only the first file opens
a transaction and only the last file commits it. -/
def wrapInTransaction (sql label : String) (scope : TransactionScope)
    (fileNumber totalFiles : Nat) : String :=
  if scope = TransactionScope.none then
    sql
  else if scope = TransactionScope.perFile then
    "-- ============================================================\n-- Transaction: " ++ label ++
      "\n-- ============================================================\nBEGIN;\n\n" ++ sql ++
      "\n\nCOMMIT;\n\n-- If any error occurs, all changes in this transaction will be rolled back\n"
  else
    if fileNumber = 1 then
      "-- ============================================================\n-- BEGIN SINGLE TRANSACTION\n-- All migration files must be executed in the same session\n-- ============================================================\nBEGIN;\n\n" ++ sql
    else if fileNumber = totalFiles then
      sql ++ "\n\n-- ============================================================\n-- COMMIT SINGLE TRANSACTION\n-- ============================================================\nCOMMIT;\n\n-- Transaction complete - all changes committed atomically\n"
    else
      sql

/-- Stage labels used by `generateSplitMigrationSQL` when wrapping the 8 files. -/
def stageLabels : List String :=
  ["Extensions and ENUMs", "Sequences", "Tables", "Indexes",
   "Constraints and Foreign Keys", "Functions", "Triggers", "RLS Policies"]

/-- The transaction-wrapping loop of `generateSplitMigrationSQL`: when the scope
is not `none`, each of the 8 stage texts is passed through `wrapInTransaction`
with its 1-based file number and `totalFiles = 8`. -/
def applyTransactionScopeToFiles (files : List String)
    (transactionScope : TransactionScope) : List String :=
  if transactionScope = TransactionScope.none then files
  else files.enum.map
    (fun p => wrapInTransaction p.2 (stageLabels.getD p.1 "") transactionScope (p.1 + 1) 8)

/-- The `tablesSQL` ('3-tables' stage body, before the dated header and the
empty-stage sentinel) built by `generateRollbackSQL`: DROP TABLE statements for
the direction-dependent missing-table list, then ALTER TABLE ... DROP COLUMN
statements for each common table's `columnsOnlyInSource`. -/
def generateRollbackTablesSQL (diff : SchemaDiff) (direction : String)
    (dryRun : Bool) : String :=
  let isSourceToTarget := direction == "source-to-target"
  let commentPrefix := if dryRun then "-- [DRY-RUN] " else ""
  let tablesToDrop := if isSourceToTarget then diff.tablesOnlyInSource else diff.tablesOnlyInTarget
  let tablesSQL :=
    if tablesToDrop.length > 0 then
      "-- ============================================================\n-- DROP TABLES\n-- ⚠️  CRITICAL: These operations will DELETE ALL DATA\n-- ============================================================\n\n" ++
      String.join (tablesToDrop.map (fun table =>
        "-- Table: " ++ (table.schema ++ "." ++ table.table) ++
        "\n-- Check row count before dropping:\n-- SELECT COUNT(*) FROM \"" ++
        table.schema ++ "\".\"" ++ table.table ++ "\";\n" ++
        commentPrefix ++ "DROP TABLE IF EXISTS \"" ++ table.schema ++ "\".\"" ++
        table.table ++ "\" CASCADE;\n\n"))
    else ""
  let tablesSQL := tablesSQL ++ String.join (diff.tablesInBoth.map (fun tableDiff =>
    if tableDiff.columnsOnlyInSource.length > 0 then
      "-- Drop columns added to: " ++ tableDiff.table_schema ++ "." ++ tableDiff.table_name ++ "\n" ++
      String.join (tableDiff.columnsOnlyInSource.map (fun col =>
        "-- ⚠️  Dropping column will delete all data in that column\n" ++
        commentPrefix ++ "ALTER TABLE \"" ++ tableDiff.table_schema ++ "\".\"" ++
        tableDiff.table_name ++ "\" DROP COLUMN IF EXISTS \"" ++ col.column_name ++
        "\" CASCADE;\n")) ++ "\n"
    else ""))
  tablesSQL

/-- Expected text of the rollback tables stage, written from the claim: the
DROP TABLE block ranges over a caller-chosen (direction-dependent) table list,
every destructive statement carries the dry-run prefix exactly when `dryRun`
is set, and the DROP COLUMN block always ranges over `columnsOnlyInSource`. -/
def rollbackTablesSpecText (tablesToDrop : List TableReference)
    (tablesInBoth : List TableDiff) (dryRun : Bool) : String :=
  (if tablesToDrop.length > 0 then
     "-- ============================================================\n-- DROP TABLES\n-- ⚠️  CRITICAL: These operations will DELETE ALL DATA\n-- ============================================================\n\n" ++
     String.join (tablesToDrop.map (fun table =>
       "-- Table: " ++ (table.schema ++ "." ++ table.table) ++
       "\n-- Check row count before dropping:\n-- SELECT COUNT(*) FROM \"" ++
       table.schema ++ "\".\"" ++ table.table ++ "\";\n" ++
       (if dryRun then "-- [DRY-RUN] " else "") ++ "DROP TABLE IF EXISTS \"" ++
       table.schema ++ "\".\"" ++ table.table ++ "\" CASCADE;\n\n"))
   else "") ++
  String.join (tablesInBoth.map (fun tableDiff =>
    if tableDiff.columnsOnlyInSource.length > 0 then
      "-- Drop columns added to: " ++ tableDiff.table_schema ++ "." ++ tableDiff.table_name ++ "\n" ++
      String.join (tableDiff.columnsOnlyInSource.map (fun col =>
        "-- ⚠️  Dropping column will delete all data in that column\n" ++
        (if dryRun then "-- [DRY-RUN] " else "") ++ "ALTER TABLE \"" ++
        tableDiff.table_schema ++ "\".\"" ++ tableDiff.table_name ++
        "\" DROP COLUMN IF EXISTS \"" ++ col.column_name ++ "\" CASCADE;\n")) ++ "\n"
    else ""))

/-- `applyFilters` of src/comparison.ts. -/
def applyFilters (diff : SchemaDiff) (filters : FilterOptions) : SchemaDiff :=
  let filtered : SchemaDiff :=
    { tablesOnlyInSource := diff.tablesOnlyInSource,
      tablesOnlyInTarget := diff.tablesOnlyInTarget,
      tablesInBoth := diff.tablesInBoth }
  let filtered := if filters.onlyMissingTables then { filtered with tablesInBoth := [] } else filtered
  let filtered := if filters.onlyColumnDiffs then
      { filtered with tablesOnlyInSource := [], tablesOnlyInTarget := [] }
    else filtered
  let filtered := if filters.criticalOnly then
      { filtered with tablesInBoth :=
          ((filtered.tablesInBoth.map (fun table =>
            { table with
              columnsWithDifferences := table.columnsWithDifferences.filter (fun col => col.isCritical) })).filter
            (fun table => table.columnsOnlyInSource.length > 0 ||
              table.columnsOnlyInTarget.length > 0 || table.columnsWithDifferences.length > 0)) }
    else filtered
  filtered

-- ============================================================
-- Concrete example inputs used by witnesses and counterexamples
-- ============================================================

/-- A nullable varchar(5) column used in the C5 counterexample. -/
def c5src : ColumnInfo :=
  { column_name := "note", data_type := "character varying", is_nullable := "YES",
    column_default := Option.none, character_maximum_length := Option.some 5,
    numeric_precision := Option.none, numeric_scale := Option.none }

/-- The same column with `character_maximum_length` shrunk to `0` (a JS-falsy length). -/
def c5tgt : ColumnInfo :=
  { c5src with character_maximum_length := Option.some 0 }

/-- An integer column used by the C5 witness. -/
def w5src : ColumnInfo :=
  { column_name := "id", data_type := "integer", is_nullable := "NO",
    column_default := Option.none, character_maximum_length := Option.none,
    numeric_precision := Option.some 32, numeric_scale := Option.some 0 }

/-- The same column retyped to `text` in the target snapshot. -/
def w5tgt : ColumnInfo :=
  { w5src with data_type := "text" }

-- ============================================================
-- Theorems
-- ============================================================

-- ============================================================
-- Structural comparator (src/comparison.ts) embedding
-- ============================================================

/-- JS regex `\s` character class (ASCII part). -/
def isJsWS (c : Char) : Bool :=
  c == ' ' || c == '\t' || c == '\n' || c == '\r' || c == Char.ofNat 11 || c == Char.ofNat 12

/-- `String.prototype.trim` on a character list. -/
def trimChars (l : List Char) : List Char :=
  ((l.dropWhile isJsWS).reverse.dropWhile isJsWS).reverse

/-- State machine for `replace(/\s+/g, ' ')`; the flag records whether the
previous character was whitespace (so the run emits a single space). -/
def collapseWSAux : Bool → List Char → List Char
  | _, [] => []
  | prevWS, c :: rest =>
    if isJsWS c then
      if prevWS then collapseWSAux true rest
      else ' ' :: collapseWSAux true rest
    else c :: collapseWSAux false rest

/-- `replace(/\s+/g, ' ')`: collapse every whitespace run to one space. -/
def collapseWS (l : List Char) : List Char :=
  collapseWSAux false l

/-- State machine for `replace(/\(\s+/g, '(')`; the flag records whether we are
inside a whitespace run that directly follows `(`. -/
def dropWSAfterParenAux : Bool → List Char → List Char
  | _, [] => []
  | afterParen, c :: rest =>
    if afterParen && isJsWS c then dropWSAfterParenAux true rest
    else if c = '(' then '(' :: dropWSAfterParenAux true rest
    else c :: dropWSAfterParenAux false rest

/-- `replace(/\(\s+/g, '(')`: drop the whitespace run after each `(`. -/
def dropWSAfterParen (l : List Char) : List Char :=
  dropWSAfterParenAux false l

/-- `replace(/\s+\)/g, ')')`: drop each whitespace run directly followed by a
`)`; computed by dropping whitespace runs that follow `)` in the reversed list. -/
def dropWSBeforeParen (l : List Char) : List Char :=
  (dropWSAfterCloseAux false l.reverse).reverse
where
  dropWSAfterCloseAux : Bool → List Char → List Char
  | _, [] => []
  | afterClose, c :: rest =>
    if afterClose && isJsWS c then dropWSAfterCloseAux true rest
    else if c = ')' then ')' :: dropWSAfterCloseAux true rest
    else c :: dropWSAfterCloseAux false rest

/-- Fueled form of the `while (startsWith '(' && endsWith ')') slice-and-trim`
loop of `normalizeCheckClause`; every iteration shortens the list by at least
two characters, so fuel `l.length` never runs out. -/
def stripOuterParensAux : Nat → List Char → List Char
  | 0, l => l
  | fuel + 1, l =>
    if l.head? = Option.some '(' ∧ l.getLast? = Option.some ')' then
      stripOuterParensAux fuel (trimChars (l.drop 1).dropLast)
    else l

/-- The outer-parenthesis-stripping loop of `normalizeCheckClause`. -/
def stripOuterParens (l : List Char) : List Char :=
  stripOuterParensAux l.length l

/-- `normalizeCheckClause` of src/utils.ts (also inlined in `compareSchemas`):
trim, collapse whitespace, strip spaces adjacent to parentheses, lowercase,
then strip wrapping outer parentheses repeatedly. -/
def normalizeCheckClause (clause : Option String) : String :=
  match clause with
  | Option.none => ""
  | Option.some c =>
    let l := trimChars c.data
    let l := collapseWS l
    let l := dropWSAfterParen l
    let l := dropWSBeforeParen l
    let l := l.map Char.toLower
    String.mk (stripOuterParens l)

/-- Modelled from the spec: `findEquivalentUniqueConstraint` (imported from
src/utils.ts but absent from the available sources) — find a UNIQUE constraint
whose sorted column set equals the given columns' sorted set. -/
def findEquivalentUniqueConstraint (columns : List String)
    (constraints : List ConstraintInfo) : Option ConstraintInfo :=
  constraints.find? (fun c =>
    c.constraint_type == "UNIQUE" &&
    (match c.columns with
     | Option.some cols => sortedJoin cols == sortedJoin columns
     | Option.none => false))

/-- Modelled from the spec: `findEquivalentUniqueIndex` (imported from
src/utils.ts but absent from the available sources) — find a unique index
whose sorted column set equals the given columns' sorted set. -/
def findEquivalentUniqueIndex (columns : List String)
    (indexes : List IndexInfo) : Option IndexInfo :=
  indexes.find? (fun idx => idx.is_unique && (sortedJoin idx.columns == sortedJoin columns))

/-- Body of the constraint-difference loops of `compareSchemas`: should the
constraint (one entry of this side's constraint map) be reported as missing
from the other side?  Name-based lookup first, then CHECK-clause equivalence,
then UNIQUE column-set equivalence (also against unique indexes), and a
name-based fallback for all other constraint types. -/
def constraintMissingIn (cName : String) (cInfo : ConstraintInfo)
    (otherConstraints : List (String × ConstraintInfo))
    (otherIndexes : List IndexInfo) : Bool :=
  if jsMapHas otherConstraints cName then false
  else if cInfo.constraint_type == "CHECK" && truthyStr cInfo.check_clause then
    let normalizedClause := normalizeCheckClause cInfo.check_clause
    let foundEquivalent := otherConstraints.any (fun q =>
      q.2.constraint_type == "CHECK" && truthyStr q.2.check_clause &&
      (normalizeCheckClause q.2.check_clause == normalizedClause))
    !foundEquivalent
  else
    match cInfo.columns with
    | Option.some cols =>
      if cInfo.constraint_type == "UNIQUE" && decide (cols.length > 0) then
        let sortedCols := sortedJoin cols
        let foundEquivalent := otherConstraints.any (fun q =>
          q.2.constraint_type == "UNIQUE" &&
          (match q.2.columns with
           | Option.some qcols => decide (qcols.length > 0) && (sortedJoin qcols == sortedCols)
           | Option.none => false))
        let foundEquivalent := foundEquivalent ||
          (findEquivalentUniqueIndex cols otherIndexes).isSome
        !foundEquivalent
      else true
    | Option.none => true

/-- The column map `new Map(table.columns.map(col => [col.column_name, col]))`. -/
def columnEntries (t : TableInfo) : List (String × ColumnInfo) :=
  jsMapOfList (t.columns.map (fun col => (col.column_name, col)))

/-- The index map `new Map(table.indexes.map(idx => [idx.index_name, idx]))`. -/
def indexEntries (t : TableInfo) : List (String × IndexInfo) :=
  jsMapOfList (t.indexes.map (fun idx => (idx.index_name, idx)))

/-- The foreign-key map keyed by constraint name. -/
def fkEntries (t : TableInfo) : List (String × ForeignKeyInfo) :=
  jsMapOfList (t.foreignKeys.map (fun fk => (fk.constraint_name, fk)))

/-- The constraint map keyed by constraint name. -/
def constraintEntries (t : TableInfo) : List (String × ConstraintInfo) :=
  jsMapOfList (t.constraints.map (fun c => (c.constraint_name, c)))

/-- Columns present (by name) in `a` but not in `b`. -/
def columnsOnlyIn (a b : TableInfo) : List ColumnInfo :=
  ((columnEntries a).filter (fun p => !jsMapHas (columnEntries b) p.1)).map (fun p => p.2)

/-- Attribute differences of columns present in both tables. -/
def columnsWithDifferencesOf (s t : TableInfo) : List ColumnDifference :=
  (columnEntries s).filterMap (fun p =>
    match jsMapGet (columnEntries t) p.1 with
    | Option.none => Option.none
    | Option.some targetCol =>
      match compareColumns p.2 targetCol with
      | Option.none => Option.none
      | Option.some result => Option.some
          ({ column_name := p.1, source := p.2, target := targetCol,
             differences := result.differences, isCritical := result.isCritical } :
            ColumnDifference))

/-- Indexes present (by name) in `a` but not in `b`, except unique non-primary
indexes for which an equivalent UNIQUE constraint exists in `b`. -/
def indexesOnlyIn (a b : TableInfo) : List IndexInfo :=
  ((indexEntries a).filter (fun p =>
      !jsMapHas (indexEntries b) p.1 &&
      (if p.2.is_unique && !p.2.is_primary then
        (findEquivalentUniqueConstraint p.2.columns b.constraints).isNone
       else true))).map (fun p => p.2)

/-- Foreign keys present (by constraint name) in `a` but not in `b`. -/
def foreignKeysOnlyIn (a b : TableInfo) : List ForeignKeyInfo :=
  ((fkEntries a).filter (fun p => !jsMapHas (fkEntries b) p.1)).map (fun p => p.2)

/-- Constraints of `a` with no name-based or logic-based equivalent in `b`. -/
def constraintsOnlyIn (a b : TableInfo) : List ConstraintInfo :=
  ((constraintEntries a).filter (fun p =>
    constraintMissingIn p.1 p.2 (constraintEntries b) b.indexes)).map (fun p => p.2)

/-- The per-table body of `compareSchemas` (src/comparison.ts lines 128-378):
column, index, foreign-key and constraint differences between one
commonly-named table's source and target versions; the `OnlyInTarget` lists
are the mirrored computations of the source's symmetric loops. -/
def computeTableDiff (sourceTable targetTable : TableInfo) : TableDiff :=
  { table_name := sourceTable.table_name
    table_schema := sourceTable.table_schema
    columnsOnlyInSource := columnsOnlyIn sourceTable targetTable
    columnsOnlyInTarget := columnsOnlyIn targetTable sourceTable
    columnsWithDifferences := columnsWithDifferencesOf sourceTable targetTable
    indexesOnlyInSource := indexesOnlyIn sourceTable targetTable
    indexesOnlyInTarget := indexesOnlyIn targetTable sourceTable
    foreignKeysOnlyInSource := foreignKeysOnlyIn sourceTable targetTable
    foreignKeysOnlyInTarget := foreignKeysOnlyIn targetTable sourceTable
    constraintsOnlyInSource := constraintsOnlyIn sourceTable targetTable
    constraintsOnlyInTarget := constraintsOnlyIn targetTable sourceTable }

/-- The inclusion test of `compareSchemas`: a commonly-named table enters
`tablesInBoth` only when at least one difference list is non-empty. -/
def tableDiffHasDifferences (td : TableDiff) : Bool :=
  decide (td.columnsOnlyInSource.length > 0) ||
  decide (td.columnsOnlyInTarget.length > 0) ||
  decide (td.columnsWithDifferences.length > 0) ||
  decide (td.indexesOnlyInSource.length > 0) ||
  decide (td.indexesOnlyInTarget.length > 0) ||
  decide (td.foreignKeysOnlyInSource.length > 0) ||
  decide (td.foreignKeysOnlyInTarget.length > 0) ||
  decide (td.constraintsOnlyInSource.length > 0) ||
  decide (td.constraintsOnlyInTarget.length > 0)

/-- `compareSchemas` of src/comparison.ts: missing tables on each side plus a
`TableDiff` for each commonly-named table having at least one difference. -/
def compareSchemas (sourceMetadata targetMetadata : SchemaMetadata) : SchemaDiff :=
  { tablesOnlyInSource := (sourceMetadata.tables.filter
      (fun p => !jsMapHas targetMetadata.tables p.1)).map
        (fun p => ({ schema := p.2.table_schema, table := p.2.table_name } : TableReference))
    tablesOnlyInTarget := (targetMetadata.tables.filter
      (fun p => !jsMapHas sourceMetadata.tables p.1)).map
        (fun p => ({ schema := p.2.table_schema, table := p.2.table_name } : TableReference))
    tablesInBoth := sourceMetadata.tables.filterMap (fun p =>
      match jsMapGet targetMetadata.tables p.1 with
      | Option.none => Option.none
      | Option.some targetTable =>
        let tableDiff := computeTableDiff p.2 targetTable
        if tableDiffHasDifferences tableDiff then Option.some tableDiff else Option.none) }
/-- A source-side UNIQUE constraint on columns (b, a) for the C3 witness. -/
def c3SrcConstraint : ConstraintInfo :=
  { constraint_name := "uq_src", constraint_type := "UNIQUE",
    check_clause := Option.none, columns := Option.some ["b", "a"] }

/-- A target-side UNIQUE constraint on a different column set for the C3 witness. -/
def c3TgtConstraint : ConstraintInfo :=
  { constraint_name := "uq_tgt", constraint_type := "UNIQUE",
    check_clause := Option.none, columns := Option.some ["c"] }

/-- Source table of the C3 witness. -/
def c3SrcTable : TableInfo :=
  { table_name := "users", table_schema := "public", columns := [], indexes := [],
    foreignKeys := [], constraints := [c3SrcConstraint], sequences := [],
    triggers := [], policies := [] }

/-- Target table of the C3 witness. -/
def c3TgtTable : TableInfo :=
  { table_name := "users", table_schema := "public", columns := [], indexes := [],
    foreignKeys := [], constraints := [c3TgtConstraint], sequences := [],
    triggers := [], policies := [] }

/-- A source-side CHECK constraint for the C4 witness. -/
def c4SrcConstraint : ConstraintInfo :=
  { constraint_name := "chk_src", constraint_type := "CHECK",
    check_clause := Option.some "(price > 0)", columns := Option.none }

/-- A target-side CHECK constraint with different clause text for the C4 witness. -/
def c4TgtConstraint : ConstraintInfo :=
  { constraint_name := "chk_tgt", constraint_type := "CHECK",
    check_clause := Option.some "price > 1", columns := Option.none }

/-- Source table of the C4 witness. -/
def c4SrcTable : TableInfo :=
  { table_name := "orders", table_schema := "public", columns := [], indexes := [],
    foreignKeys := [], constraints := [c4SrcConstraint], sequences := [],
    triggers := [], policies := [] }

/-- Target table of the C4 witness. -/
def c4TgtTable : TableInfo :=
  { table_name := "orders", table_schema := "public", columns := [], indexes := [],
    foreignKeys := [], constraints := [c4TgtConstraint], sequences := [],
    triggers := [], policies := [] }

/-- A one-table schema snapshot for the C7 witness. -/
def c7Table : TableInfo :=
  { table_name := "users", table_schema := "public",
    columns := [{ column_name := "id", data_type := "integer", is_nullable := "NO",
                  column_default := Option.none, character_maximum_length := Option.none,
                  numeric_precision := Option.some 32, numeric_scale := Option.some 0 }],
    indexes := [{ index_name := "users_pkey", is_unique := true, is_primary := true,
                  columns := ["id"], index_type := "btree" }],
    foreignKeys := [], constraints := [], sequences := [], triggers := [], policies := [] }

/-- Snapshot metadata of the C7 witness. -/
def c7Meta : SchemaMetadata :=
  { tables := [("public.users", c7Table)], enums := [], extensions := [], functions := [] }

-- ============================================================
-- Dependency graph, topological sort, tables stage generator
-- ============================================================

/-- Add an edge: `graph.get(tableKey)!.add(referencedTable)` — update the
dependency set stored under `k`. -/
def graphAddEdge (g : List (String × List String)) (k dep : String) :
    List (String × List String) :=
  g.map (fun p => if p.1 == k then (p.1, setAdd p.2 dep) else p)

/-- `buildDependencyGraph` of the migration generator: map each table key to
the set of table keys it depends on via foreign keys, restricted to the
working set and excluding self-references. -/
def buildDependencyGraph (tables : List TableReference) (metadata : SchemaMetadata) :
    List (String × List String) :=
  let tableSet := tables.map (fun t => t.schema ++ "." ++ t.table)
  tables.foldl (fun graph tableRef =>
    let tableKey := tableRef.schema ++ "." ++ tableRef.table
    match jsMapGet metadata.tables tableKey with
    | Option.none => graph
    | Option.some tableInfo =>
      let graph := if jsMapHas graph tableKey then graph else graph ++ [(tableKey, [])]
      tableInfo.foreignKeys.foldl (fun graph fk =>
        let referencedTable := fk.foreign_table_schema ++ "." ++ fk.foreign_table_name
        if tableSet.contains referencedTable && referencedTable != tableKey then
          graphAddEdge graph tableKey referencedTable
        else graph) graph) []

/-- Result record of `topologicalSort`. -/
structure TopoSortResult where
  sorted : List String
  hasCycles : Bool
  remaining : List String
  deriving DecidableEq, Repr, Inhabited

/-- The dequeue loop of `topologicalSort` (Kahn's algorithm as written in the
source): pop the queue front, append to `sorted`, decrement each neighbour's
stored in-degree and enqueue those reaching zero.  Each node is enqueued at
most once, so fuel equal to the degree-map size never runs out. -/
def processQueue (graph : List (String × List String)) :
    Nat → List String → List (String × Int) → List String → List String
  | 0, _, _, sorted => sorted
  | fuel + 1, queue, inDegree, sorted =>
    match queue with
    | [] => sorted
    | node :: rest =>
      let sorted := sorted ++ [node]
      let neighbors := (jsMapGet graph node).getD []
      let step := neighbors.foldl
        (fun (st : List (String × Int) × List String) neighbor =>
          let newDegree := (jsMapGet st.1 neighbor).getD 0 - 1
          let m := jsMapInsert st.1 (neighbor, newDegree)
          if newDegree == 0 then (m, st.2 ++ [neighbor]) else (m, st.2))
        (inDegree, rest)
      processQueue graph fuel step.2 step.1 sorted

/-- `topologicalSort` of the migration generator: in-degrees are counted on
the *referenced* side of every edge (the number of tables that depend on a
node), zero-in-degree nodes are dequeued first; unsorted nodes are the
cyclation remainder. -/
def topologicalSort (graph : List (String × List String)) : TopoSortResult :=
  let inDegree : List (String × Int) :=
    graph.foldl (fun m p => jsMapInsert m (p.1, 0)) []
  let inDegree := graph.foldl (fun m p =>
    p.2.foldl (fun m dep =>
      let m := if jsMapHas m dep then m else jsMapInsert m (dep, 0)
      jsMapInsert m (dep, (jsMapGet m dep).getD 0 + 1)) m) inDegree
  let queue := (inDegree.filter (fun p => p.2 == 0)).map (fun p => p.1)
  let sorted := processQueue graph inDegree.length queue inDegree []
  let hasCycles := sorted.length != graph.length
  let remaining :=
    if hasCycles then (graph.map (fun p => p.1)).filter (fun k => !sorted.contains k)
    else []
  { sorted := sorted, hasCycles := hasCycles, remaining := remaining }

/-- State of the strongly-connected-component DFS. -/
structure DfsState where
  visited : List String
  inStack : List String
  component : List String
  deriving DecidableEq, Repr, Inhabited

/-- The recursive `dfs` of `findStronglyConnectedComponents`; fuel bounds the
recursion depth (each nested call visits a previously unvisited node). -/
def sccDfs (graph : List (String × List String)) :
    Nat → String → DfsState → DfsState
  | 0, _, st => st
  | fuel + 1, node, st =>
    let st := { visited := setAdd st.visited node, inStack := setAdd st.inStack node,
                component := st.component ++ [node] }
    let st := ((jsMapGet graph node).getD []).foldl (fun st neighbor =>
      if !st.visited.contains neighbor then sccDfs graph fuel neighbor st
      else if st.inStack.contains neighbor then
        { st with component := st.component ++ [neighbor] }
      else st) st
    { st with inStack := st.inStack.filter (fun x => x != node) }

/-- `findStronglyConnectedComponents` of the migration generator: DFS from
each unvisited node; keep multi-node components with an internal edge, and
singletons with a self-loop. -/
def findStronglyConnectedComponents (graph : List (String × List String)) :
    List (List String) :=
  let fuel := graph.length + (graph.map (fun p => p.2.length)).sum + 1
  (graph.foldl (fun (st : List String × List (List String)) p =>
    if st.1.contains p.1 then st
    else
      let dfsRes := sccDfs graph fuel p.1
        { visited := st.1, inStack := [], component := [] }
      let component := dfsRes.component
      if component.length > 1 then
        let hasCircular := component.any (fun n =>
          let deps := (jsMapGet graph n).getD []
          component.any (fun other => other != n && deps.contains other))
        if hasCircular then (dfsRes.visited, st.2 ++ [listDedup component])
        else (dfsRes.visited, st.2)
      else
        match component with
        | [single] =>
          let deps := (jsMapGet graph single).getD []
          if deps.contains single then (dfsRes.visited, st.2 ++ [component])
          else (dfsRes.visited, st.2)
        | _ => (dfsRes.visited, st.2)) ([], [])).2

/-- Foreign key of table a referencing table b, used by the C1 evaluation. -/
def c1Fk : ForeignKeyInfo :=
  { constraint_name := "a_b_fkey", column_name := "b_id",
    foreign_table_schema := "public", foreign_table_name := "b",
    foreign_column_name := "id", on_delete := "NO ACTION", on_update := "NO ACTION" }

/-- Table `public.a`, which references `public.b`. -/
def c1TableA : TableInfo :=
  { table_name := "a", table_schema := "public", columns := [], indexes := [],
    foreignKeys := [c1Fk], constraints := [], sequences := [], triggers := [],
    policies := [] }

/-- Table `public.b`, which references nothing. -/
def c1TableB : TableInfo :=
  { table_name := "b", table_schema := "public", columns := [], indexes := [],
    foreignKeys := [], constraints := [], sequences := [], triggers := [],
    policies := [] }

/-- Snapshot holding `public.a` and `public.b` for the C1 evaluation. -/
def c1Meta : SchemaMetadata :=
  { tables := [("public.a", c1TableA), ("public.b", c1TableB)],
    enums := [], extensions := [], functions := [] }

/-- `toLowerCase` on strings (ASCII, as `Char.toLower`). -/
def jsToLower (s : String) : String :=
  String.mk (s.data.map Char.toLower)

/-- The local `formatColumnDefinition` of the migration generator: quoted
name, type (integer types never carry precision), conditional length or
precision/scale, NOT NULL, and DEFAULT. -/
def formatColumnDefinition (col : ColumnInfo) (includeDefault : Bool) : String :=
  let colDef := "\"" ++ col.column_name ++ "\" "
  let dataType := col.data_type
  let integerTypes := ["smallint", "integer", "bigint", "int2", "int4", "int8",
    "smallserial", "serial", "bigserial"]
  let isIntegerType := integerTypes.contains (jsToLower dataType)
  let colDef := colDef ++ dataType
  let colDef :=
    if !isIntegerType then
      if truthyNum col.character_maximum_length then
        colDef ++ "(" ++ toString (jsNum col.character_maximum_length) ++ ")"
      else if truthyNum col.numeric_precision && col.numeric_scale.isSome &&
          jsNum col.numeric_scale > 0 then
        colDef ++ "(" ++ toString (jsNum col.numeric_precision) ++ ", " ++
          toString (jsNum col.numeric_scale) ++ ")"
      else if truthyNum col.numeric_precision &&
          strIncludes (jsToLower col.data_type) "numeric" then
        colDef ++ "(" ++ toString (jsNum col.numeric_precision) ++ ")"
      else colDef
    else colDef
  let colDef := if col.is_nullable == "NO" then colDef ++ " NOT NULL" else colDef
  let colDef :=
    if includeDefault && truthyStr col.column_default then
      colDef ++ " DEFAULT " ++ col.column_default.getD ""
    else colDef
  colDef

/-- Destructure `tableKey.split('.')` into a table reference (JS yields the
string `undefined` when a part is missing). -/
def keyToRef (tableKey : String) : TableReference :=
  { schema := (tableKey.splitOn ".").getD 0 "undefined",
    table := (tableKey.splitOn ".").getD 1 "undefined" }

/-- The sequence-ownership statements emitted after a CREATE TABLE: for each
sequence, the first column whose default mentions the sequence name claims it. -/
def sequenceOwnershipSQL (tableInfo : TableInfo) (schema table : String) : String :=
  String.join (tableInfo.sequences.map (fun seq =>
    match tableInfo.columns.find? (fun col =>
        match col.column_default with
        | Option.some d => strIncludes d seq.sequence_name
        | Option.none => false) with
    | Option.some col =>
      "ALTER SEQUENCE \"" ++ seq.sequence_schema ++ "\".\"" ++ seq.sequence_name ++
        "\" OWNED BY \"" ++ schema ++ "\".\"" ++ table ++ "\".\"" ++ col.column_name ++
        "\";\n\n"
    | Option.none => ""))

/-- `generateCircularDependencySQL` of the migration generator: a warning
banner enumerating the cycles, then Phase 1 (CREATE TABLE with column
definitions only) and Phase 2 (ALTER TABLE ... ADD CONSTRAINT ... FOREIGN KEY
... DEFERRABLE INITIALLY DEFERRED) for every cyclic table. -/
def generateCircularDependencySQL (circularTables : List String)
    (metadata : SchemaMetadata) (cycles : List (List String)) : String :=
  "-- ============================================================\n-- CIRCULAR DEPENDENCY HANDLING\n-- Tables with circular foreign key dependencies\n-- ============================================================\n\n" ++
  "-- ⚠️  WARNING: Circular dependencies detected!\n-- The following dependency cycles were found:\n" ++
  String.join (cycles.enum.map (fun p =>
    "--   Cycle " ++ toString (p.1 + 1) ++ ": " ++ String.intercalate " → " p.2 ++
      " → " ++ p.2.headD "undefined" ++ "\n")) ++
  "--\n-- These tables will be created in two phases:\n--   1. Create table structures (without foreign keys)\n--   2. Add foreign keys with DEFERRABLE INITIALLY DEFERRED\n\n" ++
  "-- ============================================================\n-- PHASE 1: Create table structures (without foreign keys)\n-- ============================================================\n\n" ++
  String.join (circularTables.map (fun tableKey =>
    match jsMapGet metadata.tables tableKey with
    | Option.none => ""
    | Option.some tableInfo =>
      "-- Table: " ++ (keyToRef tableKey).schema ++ "." ++ (keyToRef tableKey).table ++
        " (part of circular dependency)\n" ++
      "CREATE TABLE IF NOT EXISTS \"" ++ (keyToRef tableKey).schema ++ "\".\"" ++
        (keyToRef tableKey).table ++ "\" (\n" ++
      String.intercalate ",\n"
        (tableInfo.columns.map (fun col => "  " ++ formatColumnDefinition col true)) ++
      "\n);\n\n" ++
      sequenceOwnershipSQL tableInfo (keyToRef tableKey).schema (keyToRef tableKey).table)) ++
  "-- ============================================================\n-- PHASE 2: Add foreign keys with DEFERRABLE constraints\n-- ============================================================\n\n" ++
  "-- ℹ️  DEFERRABLE INITIALLY DEFERRED constraints are checked at\n-- transaction COMMIT time, allowing circular references to work.\n\n" ++
  String.join (circularTables.map (fun tableKey =>
    match jsMapGet metadata.tables tableKey with
    | Option.none => ""
    | Option.some tableInfo =>
      if tableInfo.foreignKeys.length == 0 then ""
      else
        "-- Foreign keys for: " ++ (keyToRef tableKey).schema ++ "." ++
          (keyToRef tableKey).table ++ "\n" ++
        String.join (tableInfo.foreignKeys.map (fun fk =>
          "ALTER TABLE \"" ++ (keyToRef tableKey).schema ++ "\".\"" ++
            (keyToRef tableKey).table ++ "\" ADD CONSTRAINT \"" ++ fk.constraint_name ++
            "\" " ++ "FOREIGN KEY (\"" ++ fk.column_name ++ "\") " ++
            "REFERENCES \"" ++ fk.foreign_table_schema ++ "\".\"" ++
            fk.foreign_table_name ++ "\"(\"" ++ fk.foreign_column_name ++ "\") " ++
            "ON DELETE " ++ fk.on_delete ++ " ON UPDATE " ++ fk.on_update ++ " " ++
            "DEFERRABLE INITIALLY DEFERRED;\n")) ++
        "\n"))

/-- One CREATE TABLE block of the tables stage (columns only, plus sequence
ownership). -/
def createTableBlock (schemaMap : List (String × TableInfo)) (tableRef : TableReference) :
    String :=
  match jsMapGet schemaMap (tableRef.schema ++ "." ++ tableRef.table) with
  | Option.none => ""
  | Option.some tableInfo =>
    "-- Table: " ++ tableRef.schema ++ "." ++ tableRef.table ++ "\n" ++
    "CREATE TABLE IF NOT EXISTS \"" ++ tableRef.schema ++ "\".\"" ++ tableRef.table ++
      "\" (\n" ++
    String.intercalate ",\n"
      (tableInfo.columns.map (fun col => "  " ++ formatColumnDefinition col true)) ++
    "\n);\n\n" ++
    sequenceOwnershipSQL tableInfo tableRef.schema tableRef.table

/-- The ALTER TABLE ... ADD COLUMN section of the tables stage (direction
dependent: source-only columns for source-to-target, target-only otherwise). -/
def addColumnsBlock (diff : SchemaDiff) (isSourceToTarget : Bool) : String :=
  String.join (diff.tablesInBoth.map (fun table =>
    let columnsToAdd := if isSourceToTarget then table.columnsOnlyInSource
      else table.columnsOnlyInTarget
    if columnsToAdd.length > 0 then
      "-- Add columns to existing table: " ++ table.table_schema ++ "." ++
        table.table_name ++ "\n" ++
      String.join (columnsToAdd.map (fun col =>
        "ALTER TABLE \"" ++ table.table_schema ++ "\".\"" ++ table.table_name ++
          "\" ADD COLUMN IF NOT EXISTS " ++ formatColumnDefinition col true ++ ";\n")) ++
      "\n"
    else ""))

/-- CREATE TABLE blocks for the ordered creation list followed by the ALTER
TABLE ... ADD COLUMN section. -/
def tablesSQLBody (schemaMap : List (String × TableInfo)) (diff : SchemaDiff)
    (tablesToCreate : List TableReference) (isSourceToTarget : Bool) : String :=
  String.join (tablesToCreate.map (createTableBlock schemaMap)) ++
    addColumnsBlock diff isSourceToTarget

/-- The `hasTables` flag of `generateTablesSQL` restricted to the create and
add-column sections. -/
def tablesHasAny (schemaMap : List (String × TableInfo)) (diff : SchemaDiff)
    (tablesToCreate : List TableReference) (isSourceToTarget : Bool) : Bool :=
  tablesToCreate.any (fun r => (jsMapGet schemaMap (r.schema ++ "." ++ r.table)).isSome) ||
  diff.tablesInBoth.any (fun t =>
    (if isSourceToTarget then t.columnsOnlyInSource else t.columnsOnlyInTarget).length > 0)

/-- `generateTablesSQL` of the migration generator (the '3-tables' stage body):
ordering notes, CREATE TABLE blocks in dependency order, ADD COLUMN blocks,
and — with circular handling enabled — the two-phase circular-dependency text
appended after the main stream. -/
def generateTablesSQL (diff : SchemaDiff) (sourceMetadata : SchemaMetadata)
    (sortByDependencies handleCircularDeps isSourceToTarget : Bool) : String :=
  let schemaMap := sourceMetadata.tables
  let header := "-- ============================================================\n-- TABLES\n-- Table structures with columns only\n-- ============================================================\n\n"
  if sortByDependencies && decide (diff.tablesOnlyInSource.length > 0) then
    let graph := buildDependencyGraph diff.tablesOnlyInSource sourceMetadata
    let r := topologicalSort graph
    if r.hasCycles && handleCircularDeps then
      let cycles := findStronglyConnectedComponents graph
      let circularDepSQL := generateCircularDependencySQL r.remaining sourceMetadata cycles
      let tablesToCreate := (r.sorted.filter (fun k => !r.remaining.contains k)).map keyToRef
      let sql := header ++
        (if decide (r.sorted.length > 0) then
          "-- ℹ️  Tables ordered by foreign key dependencies\n-- Tables with no dependencies are created first\n-- (Circular dependency tables are handled separately at the end)\n\n"
         else "") ++
        tablesSQLBody schemaMap diff tablesToCreate isSourceToTarget ++
        (if circularDepSQL != "" then circularDepSQL else "")
      if tablesHasAny schemaMap diff tablesToCreate isSourceToTarget ||
          circularDepSQL != "" then sql
      else "-- No tables to create or modify\n\n"
    else if r.hasCycles && !handleCircularDeps then
      let tablesToCreate := (r.sorted ++ r.remaining).map keyToRef
      let sql := header ++
        "-- ⚠️  WARNING: Circular dependencies detected!\n-- The following tables have circular foreign key relationships:\n" ++
        String.join (r.remaining.map (fun k => "--   - " ++ k ++ "\n")) ++
        "-- Consider using --handleCircularDeps to automatically handle these.\n\n" ++
        (if decide (r.sorted.length > 0) then
          "-- ℹ️  Tables ordered by foreign key dependencies\n-- Tables with no dependencies are created first\n\n"
         else "") ++
        tablesSQLBody schemaMap diff tablesToCreate isSourceToTarget
      if tablesHasAny schemaMap diff tablesToCreate isSourceToTarget then sql
      else "-- No tables to create or modify\n\n"
    else
      let tablesToCreate := r.sorted.map keyToRef
      let sql := header ++
        (if decide (r.sorted.length > 0) then
          "-- ℹ️  Tables ordered by foreign key dependencies\n-- Tables with no dependencies are created first\n\n"
         else "") ++
        tablesSQLBody schemaMap diff tablesToCreate isSourceToTarget
      if tablesHasAny schemaMap diff tablesToCreate isSourceToTarget then sql
      else "-- No tables to create or modify\n\n"
  else
    let sql := header ++ tablesSQLBody schemaMap diff diff.tablesOnlyInSource isSourceToTarget
    if tablesHasAny schemaMap diff diff.tablesOnlyInSource isSourceToTarget then sql
    else "-- No tables to create or modify\n\n"
/-- Written from the claim: Phase 1 text for one cyclic table — a CREATE TABLE
holding only the table's column definitions (no foreign keys), plus sequence
ownership. -/
def phase1CreateSpec (metadata : SchemaMetadata) (tableKey : String) : String :=
  match jsMapGet metadata.tables tableKey with
  | Option.none => ""
  | Option.some tableInfo =>
    "-- Table: " ++ (keyToRef tableKey).schema ++ "." ++ (keyToRef tableKey).table ++
      " (part of circular dependency)\n" ++
    "CREATE TABLE IF NOT EXISTS \"" ++ (keyToRef tableKey).schema ++ "\".\"" ++
      (keyToRef tableKey).table ++ "\" (\n" ++
    String.intercalate ",\n"
      (tableInfo.columns.map (fun col => "  " ++ formatColumnDefinition col true)) ++
    "\n);\n\n" ++
    sequenceOwnershipSQL tableInfo (keyToRef tableKey).schema (keyToRef tableKey).table

/-- Written from the claim: Phase 2 text for one cyclic table — one ALTER
TABLE ... ADD CONSTRAINT ... FOREIGN KEY statement ending in DEFERRABLE
INITIALLY DEFERRED for every foreign key of the table. -/
def phase2ForeignKeySpec (metadata : SchemaMetadata) (tableKey : String) : String :=
  match jsMapGet metadata.tables tableKey with
  | Option.none => ""
  | Option.some tableInfo =>
    if tableInfo.foreignKeys.length == 0 then ""
    else
      "-- Foreign keys for: " ++ (keyToRef tableKey).schema ++ "." ++
        (keyToRef tableKey).table ++ "\n" ++
      String.join (tableInfo.foreignKeys.map (fun fk =>
        "ALTER TABLE \"" ++ (keyToRef tableKey).schema ++ "\".\"" ++
          (keyToRef tableKey).table ++ "\" ADD CONSTRAINT \"" ++ fk.constraint_name ++
          "\" " ++ "FOREIGN KEY (\"" ++ fk.column_name ++ "\") " ++
          "REFERENCES \"" ++ fk.foreign_table_schema ++ "\".\"" ++
          fk.foreign_table_name ++ "\"(\"" ++ fk.foreign_column_name ++ "\") " ++
          "ON DELETE " ++ fk.on_delete ++ " ON UPDATE " ++ fk.on_update ++ " " ++
          "DEFERRABLE INITIALLY DEFERRED;\n")) ++
      "\n"

/-- Written from the claim: the circular-dependency text — warning banner
enumerating the cycles, then Phase 1 for every cyclic table, then Phase 2 for
every cyclic table. -/
def circularSQLSpec (circularTables : List String) (metadata : SchemaMetadata)
    (cycles : List (List String)) : String :=
  "-- ============================================================\n-- CIRCULAR DEPENDENCY HANDLING\n-- Tables with circular foreign key dependencies\n-- ============================================================\n\n" ++
  "-- ⚠️  WARNING: Circular dependencies detected!\n-- The following dependency cycles were found:\n" ++
  String.join (cycles.enum.map (fun p =>
    "--   Cycle " ++ toString (p.1 + 1) ++ ": " ++ String.intercalate " → " p.2 ++
      " → " ++ p.2.headD "undefined" ++ "\n")) ++
  "--\n-- These tables will be created in two phases:\n--   1. Create table structures (without foreign keys)\n--   2. Add foreign keys with DEFERRABLE INITIALLY DEFERRED\n\n" ++
  "-- ============================================================\n-- PHASE 1: Create table structures (without foreign keys)\n-- ============================================================\n\n" ++
  String.join (circularTables.map (phase1CreateSpec metadata)) ++
  "-- ============================================================\n-- PHASE 2: Add foreign keys with DEFERRABLE constraints\n-- ============================================================\n\n" ++
  "-- ℹ️  DEFERRABLE INITIALLY DEFERRED constraints are checked at\n-- transaction COMMIT time, allowing circular references to work.\n\n" ++
  String.join (circularTables.map (phase2ForeignKeySpec metadata))

/-- Foreign key a -> b of the C2 witness cycle. -/
def c2FkAB : ForeignKeyInfo :=
  { constraint_name := "a_b_fkey", column_name := "b_id",
    foreign_table_schema := "public", foreign_table_name := "b",
    foreign_column_name := "id", on_delete := "NO ACTION", on_update := "NO ACTION" }

/-- Foreign key b -> a of the C2 witness cycle. -/
def c2FkBA : ForeignKeyInfo :=
  { constraint_name := "b_a_fkey", column_name := "a_id",
    foreign_table_schema := "public", foreign_table_name := "a",
    foreign_column_name := "id", on_delete := "NO ACTION", on_update := "NO ACTION" }

/-- Table `public.a` of the C2 witness (references `public.b`). -/
def c2TableA : TableInfo :=
  { table_name := "a", table_schema := "public",
    columns := [{ column_name := "id", data_type := "integer", is_nullable := "NO",
                  column_default := Option.none, character_maximum_length := Option.none,
                  numeric_precision := Option.some 32, numeric_scale := Option.some 0 }],
    indexes := [], foreignKeys := [c2FkAB], constraints := [], sequences := [],
    triggers := [], policies := [] }

/-- Table `public.b` of the C2 witness (references `public.a`). -/
def c2TableB : TableInfo :=
  { table_name := "b", table_schema := "public",
    columns := [{ column_name := "id", data_type := "integer", is_nullable := "NO",
                  column_default := Option.none, character_maximum_length := Option.none,
                  numeric_precision := Option.some 32, numeric_scale := Option.some 0 }],
    indexes := [], foreignKeys := [c2FkBA], constraints := [], sequences := [],
    triggers := [], policies := [] }

/-- Snapshot of the C2 witness. -/
def c2Meta : SchemaMetadata :=
  { tables := [("public.a", c2TableA), ("public.b", c2TableB)],
    enums := [], extensions := [], functions := [] }

/-- Diff of the C2 witness: both mutually referencing tables must be created. -/
def c2Diff : SchemaDiff :=
  { tablesOnlyInSource := [{ schema := "public", table := "a" },
                           { schema := "public", table := "b" }],
    tablesOnlyInTarget := [], tablesInBoth := [] }

/-- Source-side UNIQUE constraint with an empty column list (C3 counterexample). -/
def c3EmptySrcConstraint : ConstraintInfo :=
  { constraint_name := "uq_empty_src", constraint_type := "UNIQUE",
    check_clause := Option.none, columns := Option.some [] }

/-- Target-side UNIQUE constraint with the same (empty) column set but a
different name (C3 counterexample). -/
def c3EmptyTgtConstraint : ConstraintInfo :=
  { constraint_name := "uq_empty_tgt", constraint_type := "UNIQUE",
    check_clause := Option.none, columns := Option.some [] }

/-- Source table of the C3 counterexample. -/
def c3EmptySrcTable : TableInfo :=
  { table_name := "users", table_schema := "public", columns := [], indexes := [],
    foreignKeys := [], constraints := [c3EmptySrcConstraint], sequences := [],
    triggers := [], policies := [] }

/-- Target table of the C3 counterexample. -/
def c3EmptyTgtTable : TableInfo :=
  { table_name := "users", table_schema := "public", columns := [], indexes := [],
    foreignKeys := [], constraints := [c3EmptyTgtConstraint], sequences := [],
    triggers := [], policies := [] }

/-- Source-side CHECK constraint whose clause is the empty string (C4
counterexample). -/
def c4EmptySrcConstraint : ConstraintInfo :=
  { constraint_name := "chk_empty_src", constraint_type := "CHECK",
    check_clause := Option.some "", columns := Option.none }

/-- Target-side CHECK constraint whose clause is a single space — its
normalized clause is also the empty string (C4 counterexample). -/
def c4EmptyTgtConstraint : ConstraintInfo :=
  { constraint_name := "chk_empty_tgt", constraint_type := "CHECK",
    check_clause := Option.some " ", columns := Option.none }

/-- Source table of the C4 counterexample. -/
def c4EmptySrcTable : TableInfo :=
  { table_name := "orders", table_schema := "public", columns := [], indexes := [],
    foreignKeys := [], constraints := [c4EmptySrcConstraint], sequences := [],
    triggers := [], policies := [] }

/-- Target table of the C4 counterexample. -/
def c4EmptyTgtTable : TableInfo :=
  { table_name := "orders", table_schema := "public", columns := [], indexes := [],
    foreignKeys := [], constraints := [c4EmptyTgtConstraint], sequences := [],
    triggers := [], policies := [] }

end DbDump

namespace DbDump

/-- C9: the health score equals `max 0 (100 - 10*missingTables - 8*criticalDiffs
- 5*missingColumns - 3*nonCriticalDiffs)` and the severity band is `healthy` at
score 90 and above, `minor` at 70 and above, `moderate` at 40 and above, and
`critical` below that. -/
theorem calculateHealthMetrics_spec (diff : SchemaDiff) :
    (calculateHealthMetrics diff).score =
      max 0 (100
        - 10 * ((diff.tablesOnlyInSource.length : Int) + (diff.tablesOnlyInTarget.length : Int))
        - 8 * ((((diff.tablesInBoth.map
            (fun t => t.columnsWithDifferences.countP (fun c => c.isCritical))).sum : Nat) : Int))
        - 5 * ((((diff.tablesInBoth.map
            (fun t => t.columnsOnlyInSource.length + t.columnsOnlyInTarget.length)).sum : Nat) : Int))
        - 3 * ((((diff.tablesInBoth.map
            (fun t => t.columnsWithDifferences.countP (fun c => !c.isCritical))).sum : Nat) : Int))) ∧
    (calculateHealthMetrics diff).severity =
      (if (calculateHealthMetrics diff).score ≥ 90 then "healthy"
       else if (calculateHealthMetrics diff).score ≥ 70 then "minor"
       else if (calculateHealthMetrics diff).score ≥ 40 then "moderate"
       else "critical") := by
  constructor
  · simp only [calculateHealthMetrics, List.countP_eq_length_filter]
    omega
  · rfl

/-- C8: transaction wrapping leaves stage texts unchanged except as the scope
dictates: `none` returns every stage unmodified (also through the wrapping
loop), `per-file` wraps every stage in `BEGIN; ... COMMIT;`, and `single`
gives only stage 1 a leading `BEGIN` (no COMMIT), only stage 8 a trailing
`COMMIT` (no BEGIN), and leaves stages 2 through 7 unmodified. -/
theorem wrapInTransaction_scope_spec (sql label : String) (n total : Nat)
    (files : List String) :
    (wrapInTransaction sql label TransactionScope.none n total = sql) ∧
    (applyTransactionScopeToFiles files TransactionScope.none = files) ∧
    (wrapInTransaction sql label TransactionScope.perFile n total =
      "-- ============================================================\n-- Transaction: " ++ label ++
        "\n-- ============================================================\nBEGIN;\n\n" ++ sql ++
        "\n\nCOMMIT;\n\n-- If any error occurs, all changes in this transaction will be rolled back\n") ∧
    (wrapInTransaction sql label TransactionScope.single 1 8 =
      "-- ============================================================\n-- BEGIN SINGLE TRANSACTION\n-- All migration files must be executed in the same session\n-- ============================================================\nBEGIN;\n\n" ++ sql) ∧
    (wrapInTransaction sql label TransactionScope.single 8 8 =
      sql ++ "\n\n-- ============================================================\n-- COMMIT SINGLE TRANSACTION\n-- ============================================================\nCOMMIT;\n\n-- Transaction complete - all changes committed atomically\n") ∧
    (wrapInTransaction sql label TransactionScope.single 2 8 = sql) ∧
    (wrapInTransaction sql label TransactionScope.single 3 8 = sql) ∧
    (wrapInTransaction sql label TransactionScope.single 4 8 = sql) ∧
    (wrapInTransaction sql label TransactionScope.single 5 8 = sql) ∧
    (wrapInTransaction sql label TransactionScope.single 6 8 = sql) ∧
    (wrapInTransaction sql label TransactionScope.single 7 8 = sql) := by
  refine ⟨rfl, by simp [applyTransactionScopeToFiles], rfl, rfl, rfl, rfl, rfl, rfl, rfl, rfl, rfl⟩

/-- C10: the rollback tables stage drops the direction-dependent missing-table
list (`tablesOnlyInSource` for source-to-target, `tablesOnlyInTarget` for
target-to-source), each statement behind the dry-run prefix exactly when
`dryRun` is set, while the DROP COLUMN block ranges over each common table's
`columnsOnlyInSource` in BOTH directions (`columnsOnlyInTarget` is never
dropped). -/
theorem generateRollbackTablesSQL_direction_spec (diff : SchemaDiff) (dryRun : Bool) :
    (generateRollbackTablesSQL diff "source-to-target" dryRun =
      rollbackTablesSpecText diff.tablesOnlyInSource diff.tablesInBoth dryRun) ∧
    (generateRollbackTablesSQL diff "target-to-source" dryRun =
      rollbackTablesSpecText diff.tablesOnlyInTarget diff.tablesInBoth dryRun) := by
  constructor <;> rfl

/-- C6: `applyFilters` clears `tablesInBoth` under `onlyMissingTables`, clears
the missing-table lists under `onlyColumnDiffs`, and under `criticalOnly`
narrows (the result of the missing-tables clear) by keeping every
`columnsOnlyInSource`/`columnsOnlyInTarget` entry, reducing
`columnsWithDifferences` to exactly its critical entries, and dropping a table
iff all three column-difference lists are left empty. -/
theorem applyFilters_spec (diff : SchemaDiff) (filters : FilterOptions) :
    ((applyFilters diff filters).tablesOnlyInSource =
      if filters.onlyColumnDiffs then [] else diff.tablesOnlyInSource) ∧
    ((applyFilters diff filters).tablesOnlyInTarget =
      if filters.onlyColumnDiffs then [] else diff.tablesOnlyInTarget) ∧
    ((applyFilters diff filters).tablesInBoth =
      if filters.criticalOnly then
        (((if filters.onlyMissingTables then [] else diff.tablesInBoth).map
            (fun t => { t with
              columnsWithDifferences := t.columnsWithDifferences.filter (fun c => c.isCritical) })).filter
          (fun t => !(t.columnsOnlyInSource.isEmpty && t.columnsOnlyInTarget.isEmpty &&
            t.columnsWithDifferences.isEmpty)))
      else if filters.onlyMissingTables then [] else diff.tablesInBoth) := by
  obtain ⟨m, c, k⟩ := filters
  have hpred : ∀ (t : TableDiff),
      (decide (t.columnsOnlyInSource.length > 0) || decide (t.columnsOnlyInTarget.length > 0) ||
        decide (t.columnsWithDifferences.length > 0)) =
      !(t.columnsOnlyInSource.isEmpty && t.columnsOnlyInTarget.isEmpty &&
        t.columnsWithDifferences.isEmpty) := by
    intro t
    rcases t.columnsOnlyInSource with _ | _ <;>
    rcases t.columnsOnlyInTarget with _ | _ <;>
    rcases t.columnsWithDifferences with _ | _ <;> simp [List.isEmpty]
  cases m <;> cases c <;> cases k <;>
    simp [applyFilters, hpred]

/-- C5 (counterexample): `compareColumns` on a column whose
`character_maximum_length` shrinks from 5 to 0 reports a difference that is
NOT flagged critical, refuting the claim that every shrink of
`character_maximum_length` (target less than source) is critical: the
JS truthiness guard `source && target` rejects a length of `0`. -/
theorem compareColumns_shrink_to_zero_not_critical :
    compareColumns c5src c5tgt =
      Option.some { differences := ["max_length: 5 vs none"], isCritical := false } ∧
    c5src.character_maximum_length = Option.some 5 ∧
    c5tgt.character_maximum_length = Option.some 0 ∧
    c5src.data_type = c5tgt.data_type ∧
    c5src.is_nullable = c5tgt.is_nullable ∧
    ((0 : Int) < 5) := by
  refine ⟨by decide, rfl, rfl, rfl, rfl, by decide⟩

/-- C5 (amended): a difference reported by `compareColumns` is critical iff the
data type differs, or nullability goes from `YES` in the source to `NO` in the
target, or `character_maximum_length` shrinks with both lengths present and
nonzero (target less than source); default, precision and scale differences
and `NO`-to-`YES` nullability changes are never critical. -/
theorem compareColumns_critical_iff (s t : ColumnInfo) (r : ColumnCompareResult)
    (h : compareColumns s t = Option.some r) :
    r.isCritical = true ↔
      s.data_type ≠ t.data_type ∨
      (s.is_nullable = "YES" ∧ t.is_nullable = "NO") ∨
      (∃ a b : Int, s.character_maximum_length = Option.some a ∧
        t.character_maximum_length = Option.some b ∧ a ≠ 0 ∧ b ≠ 0 ∧ b < a) := by
  simp only [compareColumns, Option.ite_none_right_eq_some, Option.some.injEq] at h
  obtain ⟨-, hr⟩ := h
  have hcrit : r.isCritical =
      (if (s.character_maximum_length != t.character_maximum_length) &&
          truthyNum s.character_maximum_length && truthyNum t.character_maximum_length &&
          decide (jsNum s.character_maximum_length > jsNum t.character_maximum_length) then true
        else if (s.is_nullable != t.is_nullable) && (s.is_nullable == "YES") &&
            (t.is_nullable == "NO") then true
        else if s.data_type != t.data_type then true
        else false) := by
    rw [← hr]
  rw [hcrit]
  clear hcrit hr
  by_cases h1 : s.data_type = t.data_type <;>
  by_cases h3 : s.is_nullable = "YES" <;>
  by_cases h4 : t.is_nullable = "NO" <;>
  rcases hs : s.character_maximum_length with _ | a <;>
  rcases ht : t.character_maximum_length with _ | b <;>
  simp_all [truthyNum, jsNum] <;> omega

/-- C5 (witness): the criticality characterisation applied to a concrete pair
of columns whose data types differ. -/
theorem compareColumns_critical_iff_witness :
    ({ differences := ["type: integer vs text"], isCritical := true } :
        ColumnCompareResult).isCritical = true ↔
      w5src.data_type ≠ w5tgt.data_type ∨
      (w5src.is_nullable = "YES" ∧ w5tgt.is_nullable = "NO") ∨
      (∃ a b : Int, w5src.character_maximum_length = Option.some a ∧
        w5tgt.character_maximum_length = Option.some b ∧ a ≠ 0 ∧ b ≠ 0 ∧ b < a) :=
  compareColumns_critical_iff w5src w5tgt _ (by decide)


-- Association-list lemmas for the JS Map model

theorem mem_jsMapInsert {α : Type} {m : List (String × α)} {kv p : String × α}
    (h : p ∈ jsMapInsert m kv) : p ∈ m ∨ p = kv := by
  unfold jsMapInsert at h
  split at h
  · obtain ⟨q, hq, hfq⟩ := List.mem_map.mp h
    by_cases hk : q.1 == kv.1
    · right
      rw [if_pos hk] at hfq
      have h1 : q.1 = kv.1 := by simpa using hk
      rw [← hfq, h1]
    · left
      simp [hk] at hfq
      subst hfq
      exact hq
  · rcases List.mem_append.mp h with h1 | h1
    · exact Or.inl h1
    · exact Or.inr (List.mem_singleton.mp h1)

theorem mem_jsMapFoldl {α : Type} {l : List (String × α)} {acc : List (String × α)}
    {p : String × α} (h : p ∈ l.foldl jsMapInsert acc) : p ∈ acc ∨ p ∈ l := by
  induction l generalizing acc with
  | nil => exact Or.inl h
  | cons x xs ih =>
    rw [List.foldl_cons] at h
    rcases ih h with h1 | h1
    · rcases mem_jsMapInsert h1 with h2 | h2
      · exact Or.inl h2
      · exact Or.inr (by simp [h2])
    · exact Or.inr (List.mem_cons_of_mem _ h1)

theorem mem_jsMapOfList {α : Type} {l : List (String × α)} {p : String × α}
    (h : p ∈ jsMapOfList l) : p ∈ l := by
  rcases mem_jsMapFoldl h with h1 | h1
  · simp at h1
  · exact h1

theorem jsMapHas_insert {α : Type} (m : List (String × α)) (kv : String × α) (k : String) :
    jsMapHas (jsMapInsert m kv) k = (jsMapHas m k || (kv.1 == k)) := by
  unfold jsMapInsert jsMapHas
  split
  · next hany =>
    rw [List.any_map]
    by_cases hk : kv.1 == k
    · have hmk : m.any (fun p => p.1 == k) = true := by
        obtain ⟨q, hq, hq2⟩ := List.any_eq_true.mp hany
        refine List.any_eq_true.mpr ⟨q, hq, ?_⟩
        have : q.1 = kv.1 := by simpa using hq2
        simp [this]
        simpa using hk
      rw [hmk]
      simp only [Bool.true_or]
      refine List.any_eq_true.mpr ?_
      obtain ⟨q, hq, hq2⟩ := List.any_eq_true.mp hmk
      refine ⟨q, hq, ?_⟩
      simp only [Function.comp]
      split
      · simpa using hq2
      · exact hq2
    · have hk' : kv.1 ≠ k := by simpa using hk
      have hfun : ((fun p => p.1 == k) ∘ fun p : String × α =>
          if p.1 == kv.1 then (p.1, kv.2) else p) = (fun p => p.1 == k) := by
        funext q
        simp only [Function.comp]
        split <;> rfl
      rw [hfun]
      simp [hk']
  · rw [List.any_append]
    simp

theorem jsMapHas_foldl {α : Type} (l : List (String × α)) (acc : List (String × α)) (k : String) :
    jsMapHas (l.foldl jsMapInsert acc) k = (jsMapHas acc k || l.any (fun p => p.1 == k)) := by
  induction l generalizing acc with
  | nil => simp
  | cons x xs ih =>
    simp only [List.foldl_cons, List.any_cons]
    rw [ih, jsMapHas_insert]
    cases jsMapHas acc k <;> cases (x.1 == k) <;> simp

theorem jsMapHas_ofList {α : Type} (l : List (String × α)) (k : String) :
    jsMapHas (jsMapOfList l) k = l.any (fun p => p.1 == k) := by
  unfold jsMapOfList
  rw [jsMapHas_foldl]
  simp [jsMapHas]

theorem keysNodup_jsMapInsert {α : Type} {m : List (String × α)} (kv : String × α)
    (h : (m.map Prod.fst).Nodup) : ((jsMapInsert m kv).map Prod.fst).Nodup := by
  unfold jsMapInsert
  split
  · have hfun : (Prod.fst ∘ fun p : String × α =>
        if p.1 == kv.1 then (p.1, kv.2) else p) = Prod.fst := by
      funext q
      simp only [Function.comp]
      split <;> rfl
    rw [List.map_map, hfun]
    exact h
  · next hany =>
    rw [List.map_append]
    simp only [List.map_cons, List.map_nil]
    rw [List.nodup_append]
    refine ⟨h, List.nodup_singleton _, ?_⟩
    intro a ha hb
    simp only [List.mem_singleton] at hb
    subst hb
    obtain ⟨q, hq, hq1⟩ := List.mem_map.mp ha
    have : m.any (fun p => p.1 == kv.1) = true :=
      List.any_eq_true.mpr ⟨q, hq, by simp [hq1]⟩
    simp [this] at hany

theorem keysNodup_jsMapOfList {α : Type} (l : List (String × α)) :
    ((jsMapOfList l).map Prod.fst).Nodup := by
  unfold jsMapOfList
  have h : ∀ acc : List (String × α), (acc.map Prod.fst).Nodup →
      ((l.foldl jsMapInsert acc).map Prod.fst).Nodup := by
    induction l with
    | nil => intro acc h; exact h
    | cons x xs ih =>
      intro acc h
      exact ih (jsMapInsert acc x) (keysNodup_jsMapInsert x h)
  exact h [] (by simp)

theorem jsMapGet_of_mem {α : Type} {m : List (String × α)} {k : String} {v : α}
    (hnd : (m.map Prod.fst).Nodup) (h : (k, v) ∈ m) : jsMapGet m k = Option.some v := by
  induction m with
  | nil => simp at h
  | cons x xs ih =>
    simp only [List.map_cons, List.nodup_cons] at hnd
    obtain ⟨hx, hxs⟩ := hnd
    rcases List.mem_cons.mp h with h1 | h1
    · unfold jsMapGet
      rw [← h1]
      simp [List.find?]
    · have hk : ¬(x.1 == k) = true := by
        intro hc
        refine hx ?_
        have : x.1 = k := by simpa using hc
        rw [this]
        exact List.mem_map.mpr ⟨(k, v), h1, rfl⟩
      unfold jsMapGet at ih ⊢
      rw [List.find?]
      simp only [hk]
      exact ih hxs h1

theorem foldl_jsMapInsert_eq_append {α : Type} {l acc : List (String × α)}
    (hnd : ((acc ++ l).map Prod.fst).Nodup) : l.foldl jsMapInsert acc = acc ++ l := by
  induction l generalizing acc with
  | nil => simp
  | cons x xs ih =>
    have hnd' : (List.map Prod.fst acc ++ x.1 :: List.map Prod.fst xs).Nodup := by
      simpa using hnd
    rw [List.nodup_append] at hnd'
    have hx : ¬ x.1 ∈ acc.map Prod.fst := by
      intro hc
      exact hnd'.2.2 hc (by simp)
    have hins : jsMapInsert acc x = acc ++ [x] := by
      unfold jsMapInsert
      have : acc.any (fun p => p.1 == x.1) = false := by
        rw [List.any_eq_false]
        intro p hp hc
        refine hx ?_
        have : p.1 = x.1 := by simpa using hc
        rw [← this]
        exact List.mem_map.mpr ⟨p, hp, rfl⟩
      simp [this]
    simp only [List.foldl_cons, hins]
    rw [@ih (acc ++ [x]) (by simpa using hnd)]
    simp

theorem jsMapOfList_eq_self {α : Type} {l : List (String × α)}
    (h : (l.map Prod.fst).Nodup) : jsMapOfList l = l := by
  unfold jsMapOfList
  have := @foldl_jsMapInsert_eq_append α l [] (by simpa using h)
  simpa using this

theorem jsMapHas_of_mem {α : Type} {m : List (String × α)} {p : String × α}
    (h : p ∈ m) : jsMapHas m p.1 = true :=
  List.any_eq_true.mpr ⟨p, h, by simp⟩

theorem compareColumns_self (c : ColumnInfo) : compareColumns c c = Option.none := by
  simp [compareColumns]

theorem columnsOnlyIn_self (t : TableInfo) : columnsOnlyIn t t = [] := by
  unfold columnsOnlyIn
  rw [List.filter_eq_nil.mpr, List.map_nil]
  intro p hp
  simp [jsMapHas_of_mem hp]

theorem columnsWithDifferencesOf_self (t : TableInfo) : columnsWithDifferencesOf t t = [] := by
  unfold columnsWithDifferencesOf
  rw [List.filterMap_eq_nil.mpr]
  intro p hp
  have hget : jsMapGet (columnEntries t) p.1 = Option.some p.2 :=
    jsMapGet_of_mem (keysNodup_jsMapOfList _) (by simpa using hp)
  rw [hget]
  simp [compareColumns_self]

theorem indexesOnlyIn_self (t : TableInfo) : indexesOnlyIn t t = [] := by
  unfold indexesOnlyIn
  rw [List.filter_eq_nil.mpr, List.map_nil]
  intro p hp
  simp [jsMapHas_of_mem hp]

theorem foreignKeysOnlyIn_self (t : TableInfo) : foreignKeysOnlyIn t t = [] := by
  unfold foreignKeysOnlyIn
  rw [List.filter_eq_nil.mpr, List.map_nil]
  intro p hp
  simp [jsMapHas_of_mem hp]

theorem constraintsOnlyIn_self (t : TableInfo) : constraintsOnlyIn t t = [] := by
  unfold constraintsOnlyIn
  rw [List.filter_eq_nil.mpr, List.map_nil]
  intro p hp
  simp [constraintMissingIn, jsMapHas_of_mem hp]

theorem computeTableDiff_self_empty (t : TableInfo) :
    tableDiffHasDifferences (computeTableDiff t t) = false := by
  simp [tableDiffHasDifferences, computeTableDiff, columnsOnlyIn_self,
    columnsWithDifferencesOf_self, indexesOnlyIn_self, foreignKeysOnlyIn_self,
    constraintsOnlyIn_self]

/-- C7: comparing a snapshot against itself yields no `tablesInBoth` entries,
and in general a commonly-named table enters `tablesInBoth` only when at least
one of its difference categories is non-empty. -/
theorem compareSchemas_no_self_diff :
    (∀ A : SchemaMetadata, (A.tables.map Prod.fst).Nodup →
       (compareSchemas A A).tablesInBoth = []) ∧
    (∀ A B : SchemaMetadata, ∀ td ∈ (compareSchemas A B).tablesInBoth,
       td.columnsOnlyInSource ≠ [] ∨ td.columnsOnlyInTarget ≠ [] ∨
       td.columnsWithDifferences ≠ [] ∨ td.indexesOnlyInSource ≠ [] ∨
       td.indexesOnlyInTarget ≠ [] ∨ td.foreignKeysOnlyInSource ≠ [] ∨
       td.foreignKeysOnlyInTarget ≠ [] ∨ td.constraintsOnlyInSource ≠ [] ∨
       td.constraintsOnlyInTarget ≠ []) := by
  constructor
  · intro A hnd
    show A.tables.filterMap _ = []
    rw [List.filterMap_eq_nil.mpr]
    intro p hp
    have hget : jsMapGet A.tables p.1 = Option.some p.2 :=
      jsMapGet_of_mem hnd (by simpa using hp)
    simp only [hget, computeTableDiff_self_empty]
    rfl
  · intro A B td htd
    have hmem := List.mem_filterMap.mp htd
    obtain ⟨p, hp, hfp⟩ := hmem
    rcases hget : jsMapGet B.tables p.1 with _ | targetTable
    · rw [hget] at hfp
      simp at hfp
    · rw [hget] at hfp
      simp only at hfp
      split at hfp
      · next hdiff =>
        have htd' : td = computeTableDiff p.2 targetTable := by
          injection hfp with h
          exact h.symm
        rw [htd'] at *
        simp only [tableDiffHasDifferences] at hdiff
        simp only [Bool.or_eq_true, decide_eq_true_eq] at hdiff
        rcases hdiff with ((((((((h|h)|h)|h)|h)|h)|h)|h)|h) <;>
          simp [List.length_pos] at h <;>
          tauto
      · simp at hfp

theorem constraintEntries_eq {t : TableInfo}
    (ht : (t.constraints.map (fun c => c.constraint_name)).Nodup) :
    constraintEntries t = t.constraints.map (fun c => (c.constraint_name, c)) := by
  unfold constraintEntries
  apply jsMapOfList_eq_self
  rw [List.map_map]
  exact ht

theorem sortedJoin_congr {l1 l2 : List String} (h : sortStrings l1 = sortStrings l2) :
    sortedJoin l1 = sortedJoin l2 := by
  unfold sortedJoin
  rw [h]

/-- C3 (amended): a UNIQUE constraint with a NONEMPTY column list reported in
`constraintsOnlyInSource` (resp. `...Target`) has no nonempty-column UNIQUE
constraint and no unique index with the same sorted column set in the other
table, and a unique non-primary index reported in `indexesOnlyInSource`
(resp. `...Target`) has no UNIQUE constraint with the same sorted column set
in the other table; hence equivalent UNIQUE constraints/indexes with nonempty
column sets are never reported, regardless of names or column order.  (A
UNIQUE constraint with an empty column list takes the name-based fallback and
is reported even when an empty-set equivalent exists — see the
counterexample.) -/
theorem computeTableDiff_unique_equivalence (s t : TableInfo)
    (hs : (s.constraints.map (fun c => c.constraint_name)).Nodup)
    (ht : (t.constraints.map (fun c => c.constraint_name)).Nodup) :
    (∀ c ∈ (computeTableDiff s t).constraintsOnlyInSource,
      c.constraint_type = "UNIQUE" → ∀ cols, c.columns = Option.some cols → cols ≠ [] →
        (∀ q ∈ t.constraints, q.constraint_type = "UNIQUE" →
          ∀ qcols, q.columns = Option.some qcols → qcols ≠ [] →
            sortStrings qcols ≠ sortStrings cols) ∧
        (∀ idx ∈ t.indexes, idx.is_unique = true →
          sortStrings idx.columns ≠ sortStrings cols)) ∧
    (∀ c ∈ (computeTableDiff s t).constraintsOnlyInTarget,
      c.constraint_type = "UNIQUE" → ∀ cols, c.columns = Option.some cols → cols ≠ [] →
        (∀ q ∈ s.constraints, q.constraint_type = "UNIQUE" →
          ∀ qcols, q.columns = Option.some qcols → qcols ≠ [] →
            sortStrings qcols ≠ sortStrings cols) ∧
        (∀ idx ∈ s.indexes, idx.is_unique = true →
          sortStrings idx.columns ≠ sortStrings cols)) ∧
    (∀ idx ∈ (computeTableDiff s t).indexesOnlyInSource,
      idx.is_unique = true → idx.is_primary = false →
        ∀ q ∈ t.constraints, q.constraint_type = "UNIQUE" →
          ∀ qcols, q.columns = Option.some qcols →
            sortStrings qcols ≠ sortStrings idx.columns) ∧
    (∀ idx ∈ (computeTableDiff s t).indexesOnlyInTarget,
      idx.is_unique = true → idx.is_primary = false →
        ∀ q ∈ s.constraints, q.constraint_type = "UNIQUE" →
          ∀ qcols, q.columns = Option.some qcols →
            sortStrings qcols ≠ sortStrings idx.columns) := by
  have constraintSide : ∀ (a b : TableInfo),
      (b.constraints.map (fun c => c.constraint_name)).Nodup →
      ∀ c ∈ constraintsOnlyIn a b,
        c.constraint_type = "UNIQUE" → ∀ cols, c.columns = Option.some cols → cols ≠ [] →
          (∀ q ∈ b.constraints, q.constraint_type = "UNIQUE" →
            ∀ qcols, q.columns = Option.some qcols → qcols ≠ [] →
              sortStrings qcols ≠ sortStrings cols) ∧
          (∀ idx ∈ b.indexes, idx.is_unique = true →
            sortStrings idx.columns ≠ sortStrings cols) := by
    intro a b hb c hc hty cols hcols hne
    obtain ⟨p, hpfil, hpc⟩ := List.mem_map.mp hc
    obtain ⟨k, c2⟩ := p
    simp only at hpc
    subst hpc
    obtain ⟨hpmem, hpred⟩ := List.mem_filter.mp hpfil
    unfold constraintMissingIn at hpred
    cases hhas : jsMapHas (constraintEntries b) k with
    | true => simp [hhas] at hpred
    | false =>
      have hlen : 0 < cols.length := List.length_pos.mpr hne
      simp only [hhas, hty, hcols, Bool.false_eq_true, if_false] at hpred
      simp only [show ("UNIQUE" == "CHECK") = false by decide, Bool.false_and,
        Bool.false_eq_true, if_false] at hpred
      have hlen' : decide (cols.length > 0) = true := by simpa using hlen
      simp only [show ("UNIQUE" == "UNIQUE") = true by decide, Bool.true_and,
        hlen', if_true] at hpred
      rw [Bool.not_eq_true'] at hpred
      rw [Bool.or_eq_false_iff] at hpred
      obtain ⟨hany, hidx⟩ := hpred
      constructor
      · intro q hq hqty qcols hqcols hqne heq
        rw [constraintEntries_eq hb] at hany
        rw [List.any_eq_false] at hany
        refine hany (q.constraint_name, q) (List.mem_map.mpr ⟨q, hq, rfl⟩) ?_
        have hqlen : 0 < qcols.length := List.length_pos.mpr hqne
        simp only [hqty, hqcols]
        simp only [show ("UNIQUE" == "UNIQUE") = true by decide, Bool.true_and]
        simp [hqlen, sortedJoin_congr heq]
      · intro idx hidx2 hidxu heq
        rcases hfi : findEquivalentUniqueIndex cols b.indexes with _ | found
        · unfold findEquivalentUniqueIndex at hfi
          rw [List.find?_eq_none] at hfi
          have := hfi idx hidx2
          simp [hidxu, sortedJoin_congr heq] at this
        · rw [hfi] at hidx
          simp at hidx
  have indexSide : ∀ (a b : TableInfo),
      ∀ idx ∈ indexesOnlyIn a b,
        idx.is_unique = true → idx.is_primary = false →
          ∀ q ∈ b.constraints, q.constraint_type = "UNIQUE" →
            ∀ qcols, q.columns = Option.some qcols →
              sortStrings qcols ≠ sortStrings idx.columns := by
    intro a b idx hidx hu hp q hq hqty qcols hqcols heq
    obtain ⟨pp, hpfil, hpc⟩ := List.mem_map.mp hidx
    obtain ⟨k, idx2⟩ := pp
    simp only at hpc
    subst hpc
    obtain ⟨hpmem, hpred⟩ := List.mem_filter.mp hpfil
    simp only [hu, hp, Bool.not_false, Bool.and_true, Bool.true_and, if_true,
      Bool.and_eq_true] at hpred
    obtain ⟨-, hnone⟩ := hpred
    rw [Option.isNone_iff_eq_none] at hnone
    unfold findEquivalentUniqueConstraint at hnone
    rw [List.find?_eq_none] at hnone
    have := hnone q hq
    simp [hqty, hqcols, sortedJoin_congr heq] at this
  exact ⟨constraintSide s t ht, constraintSide t s hs, indexSide s t, indexSide t s⟩

/-- C4 (amended): a CHECK constraint with a NONEMPTY clause string reported in
`constraintsOnlyInSource` (resp. `...Target`) has no nonempty-clause CHECK
constraint with equal normalized clause text in the other table (so
equal-normalized CHECKs with truthy clauses produce no entry regardless of
names); conversely a CHECK constraint whose name is absent from the other
table and whose normalized clause matches no nonempty-clause CHECK there is
reported, in both directions.  (A CHECK constraint whose clause is the empty
string takes the name-based fallback and never serves as an equivalence
partner — see the counterexample.) -/
theorem computeTableDiff_check_equivalence (s t : TableInfo)
    (hs : (s.constraints.map (fun c => c.constraint_name)).Nodup)
    (ht : (t.constraints.map (fun c => c.constraint_name)).Nodup) :
    (∀ c ∈ (computeTableDiff s t).constraintsOnlyInSource,
      c.constraint_type = "CHECK" → ∀ cl, c.check_clause = Option.some cl → cl ≠ "" →
        ∀ q ∈ t.constraints, q.constraint_type = "CHECK" →
          ∀ qcl, q.check_clause = Option.some qcl → qcl ≠ "" →
            normalizeCheckClause (Option.some qcl) ≠ normalizeCheckClause (Option.some cl)) ∧
    (∀ c ∈ (computeTableDiff s t).constraintsOnlyInTarget,
      c.constraint_type = "CHECK" → ∀ cl, c.check_clause = Option.some cl → cl ≠ "" →
        ∀ q ∈ s.constraints, q.constraint_type = "CHECK" →
          ∀ qcl, q.check_clause = Option.some qcl → qcl ≠ "" →
            normalizeCheckClause (Option.some qcl) ≠ normalizeCheckClause (Option.some cl)) ∧
    (∀ c ∈ s.constraints,
      c.constraint_type = "CHECK" → ∀ cl, c.check_clause = Option.some cl → cl ≠ "" →
        (∀ q ∈ t.constraints, q.constraint_name ≠ c.constraint_name) →
        (∀ q ∈ t.constraints, q.constraint_type = "CHECK" →
          ∀ qcl, q.check_clause = Option.some qcl → qcl ≠ "" →
            normalizeCheckClause (Option.some qcl) ≠ normalizeCheckClause (Option.some cl)) →
        c ∈ (computeTableDiff s t).constraintsOnlyInSource) ∧
    (∀ c ∈ t.constraints,
      c.constraint_type = "CHECK" → ∀ cl, c.check_clause = Option.some cl → cl ≠ "" →
        (∀ q ∈ s.constraints, q.constraint_name ≠ c.constraint_name) →
        (∀ q ∈ s.constraints, q.constraint_type = "CHECK" →
          ∀ qcl, q.check_clause = Option.some qcl → qcl ≠ "" →
            normalizeCheckClause (Option.some qcl) ≠ normalizeCheckClause (Option.some cl)) →
        c ∈ (computeTableDiff s t).constraintsOnlyInTarget) := by
  have negSide : ∀ (a b : TableInfo),
      (b.constraints.map (fun c => c.constraint_name)).Nodup →
      ∀ c ∈ constraintsOnlyIn a b,
        c.constraint_type = "CHECK" → ∀ cl, c.check_clause = Option.some cl → cl ≠ "" →
          ∀ q ∈ b.constraints, q.constraint_type = "CHECK" →
            ∀ qcl, q.check_clause = Option.some qcl → qcl ≠ "" →
              normalizeCheckClause (Option.some qcl) ≠ normalizeCheckClause (Option.some cl) := by
    intro a b hb c hc hty cl hcl hclne q hq hqty qcl hqcl hqclne heq
    obtain ⟨p, hpfil, hpc⟩ := List.mem_map.mp hc
    obtain ⟨k, c2⟩ := p
    simp only at hpc
    subst hpc
    obtain ⟨hpmem, hpred⟩ := List.mem_filter.mp hpfil
    unfold constraintMissingIn at hpred
    cases hhas : jsMapHas (constraintEntries b) k with
    | true => simp [hhas] at hpred
    | false =>
      have htr : truthyStr c2.check_clause = true := by simp [truthyStr, hcl, hclne]
      simp only [hhas, Bool.false_eq_true, if_false, hty,
        show ("CHECK" == "CHECK") = true by decide, htr, Bool.and_self, if_true] at hpred
      rw [Bool.not_eq_true'] at hpred
      rw [constraintEntries_eq hb] at hpred
      rw [List.any_eq_false] at hpred
      refine hpred (q.constraint_name, q) (List.mem_map.mpr ⟨q, hq, rfl⟩) ?_
      have hqtr : truthyStr q.check_clause = true := by simp [truthyStr, hqcl, hqclne]
      simp only [hqty, show ("CHECK" == "CHECK") = true by decide, hqtr, Bool.true_and]
      rw [hqcl, hcl, heq]
      simp
  have posSide : ∀ (a b : TableInfo),
      (a.constraints.map (fun c => c.constraint_name)).Nodup →
      ∀ c ∈ a.constraints,
        c.constraint_type = "CHECK" → ∀ cl, c.check_clause = Option.some cl → cl ≠ "" →
          (∀ q ∈ b.constraints, q.constraint_name ≠ c.constraint_name) →
          (∀ q ∈ b.constraints, q.constraint_type = "CHECK" →
            ∀ qcl, q.check_clause = Option.some qcl → qcl ≠ "" →
              normalizeCheckClause (Option.some qcl) ≠ normalizeCheckClause (Option.some cl)) →
          c ∈ constraintsOnlyIn a b := by
    intro a b ha c hc hty cl hcl hclne hfresh hnoeq
    unfold constraintsOnlyIn
    refine List.mem_map.mpr ⟨(c.constraint_name, c), ?_, rfl⟩
    refine List.mem_filter.mpr ⟨?_, ?_⟩
    · rw [constraintEntries_eq ha]
      exact List.mem_map.mpr ⟨c, hc, rfl⟩
    · have hhas : jsMapHas (constraintEntries b) c.constraint_name = false := by
        unfold constraintEntries
        rw [jsMapHas_ofList]
        rw [List.any_eq_false]
        intro p hp
        obtain ⟨q, hq, hqe⟩ := List.mem_map.mp hp
        subst hqe
        intro h2
        exact hfresh q hq (by simpa using h2)
      have hfound : ((constraintEntries b).any (fun q =>
          q.2.constraint_type == "CHECK" && truthyStr q.2.check_clause &&
          (normalizeCheckClause q.2.check_clause ==
            normalizeCheckClause c.check_clause))) = false := by
        rw [List.any_eq_false]
        intro p hp
        have hraw := mem_jsMapOfList hp
        obtain ⟨q, hq, hqe⟩ := List.mem_map.mp hraw
        intro hcontra
        rw [← hqe] at hcontra
        simp only [Bool.and_eq_true, beq_iff_eq] at hcontra
        obtain ⟨⟨hqty, hqtr⟩, hqeq⟩ := hcontra
        have hqty' : q.constraint_type = "CHECK" := by simpa using hqty
        rcases hqc : q.check_clause with _ | qcl
        · rw [hqc] at hqtr; simp [truthyStr] at hqtr
        · rw [hqc] at hqtr
          have hqclne : qcl ≠ "" := by simpa [truthyStr] using hqtr
          refine hnoeq q hq hqty' qcl hqc hqclne ?_
          rw [hqc, hcl] at hqeq
          exact hqeq
      unfold constraintMissingIn
      have htr : truthyStr c.check_clause = true := by simp [truthyStr, hcl, hclne]
      simp only [hhas, Bool.false_eq_true, if_false, hty,
        show ("CHECK" == "CHECK") = true by decide, htr, Bool.and_self, if_true,
        hfound, Bool.not_false]
  exact ⟨negSide s t ht, negSide t s hs, posSide s t hs, posSide t s ht⟩

/-- C3 (witness): the equivalence theorem applied to a concrete reported UNIQUE
constraint and the concrete non-equivalent UNIQUE constraint of the other side. -/
theorem computeTableDiff_unique_equivalence_witness :
    sortStrings ["c"] ≠ sortStrings ["b", "a"] :=
  (((computeTableDiff_unique_equivalence c3SrcTable c3TgtTable (by decide) (by decide)).1
      c3SrcConstraint (by decide) rfl ["b", "a"] rfl (by decide)).1
    c3TgtConstraint (by decide) rfl ["c"] rfl (by decide))

/-- C4 (witness): two CHECK constraints with distinct names and distinct
normalized clauses are reported in both directions. -/
theorem computeTableDiff_check_equivalence_witness :
    c4SrcConstraint ∈ (computeTableDiff c4SrcTable c4TgtTable).constraintsOnlyInSource ∧
    c4TgtConstraint ∈ (computeTableDiff c4SrcTable c4TgtTable).constraintsOnlyInTarget :=
  ⟨(computeTableDiff_check_equivalence c4SrcTable c4TgtTable (by decide) (by decide)).2.2.1
      c4SrcConstraint (by decide) rfl "(price > 0)" rfl (by decide) (by decide) (by decide),
   (computeTableDiff_check_equivalence c4SrcTable c4TgtTable (by decide) (by decide)).2.2.2
      c4TgtConstraint (by decide) rfl "price > 1" rfl (by decide) (by decide) (by decide)⟩

/-- C7 (witness): comparing the concrete snapshot with itself reports no
common-table differences. -/
theorem compareSchemas_no_self_diff_witness :
    (compareSchemas c7Meta c7Meta).tablesInBoth = [] :=
  compareSchemas_no_self_diff.1 c7Meta (by decide)



/-- C1: on the acyclic two-table graph where `public.a` references `public.b`,
the code's topological sort returns `[public.a, public.b]` — the referencing
table FIRST — because the in-degree count is taken on the referenced (not the
referencing) endpoint of each edge; the claim (and the code's own emitted
comment "Tables with no dependencies are created first") requires `public.b`
to come first. -/
theorem topologicalSort_puts_dependent_before_dependency :
    buildDependencyGraph
        [{ schema := "public", table := "a" }, { schema := "public", table := "b" }]
        c1Meta =
      [("public.a", ["public.b"]), ("public.b", [])] ∧
    topologicalSort [("public.a", ["public.b"]), ("public.b", [])] =
      { sorted := ["public.a", "public.b"], hasCycles := false, remaining := [] } := by
  constructor
  · decide
  · decide

set_option maxRecDepth 4096 in
theorem generateCircularDependencySQL_ne_empty (ct : List String)
    (m : SchemaMetadata) (cy : List (List String)) :
    generateCircularDependencySQL ct m cy ≠ "" := by
  intro h
  have h1 : (generateCircularDependencySQL ct m cy).length = 0 := by rw [h]; rfl
  unfold generateCircularDependencySQL at h1
  simp only [String.length_append] at h1
  have hx : 0 < ("-- ============================================================\n-- CIRCULAR DEPENDENCY HANDLING\n-- Tables with circular foreign key dependencies\n-- ============================================================\n\n" : String).length := by decide
  omega

/-- C2: with dependency sorting and circular handling both enabled and the
dependency graph cyclic, the '3-tables' stage text is the header, the
ordering note, the normal creation stream over the sorted tables with the
cyclic ones excluded, the ADD COLUMN section, and then — appended after that
main stream — the circular-dependency text whose Phase 1 emits a CREATE TABLE
holding only column definitions for every cyclic table and whose Phase 2 emits
an ALTER TABLE ... ADD CONSTRAINT ... FOREIGN KEY ... DEFERRABLE INITIALLY
DEFERRED statement for every foreign key of every cyclic table. -/
theorem generateTablesSQL_circular_two_phase (diff : SchemaDiff)
    (meta : SchemaMetadata) (isSourceToTarget : Bool)
    (hcyc : (topologicalSort (buildDependencyGraph diff.tablesOnlyInSource meta)).hasCycles
      = true) :
    (generateTablesSQL diff meta true true isSourceToTarget =
      "-- ============================================================\n-- TABLES\n-- Table structures with columns only\n-- ============================================================\n\n" ++
      (if decide
          ((topologicalSort (buildDependencyGraph diff.tablesOnlyInSource meta)).sorted.length
            > 0)
       then
        "-- ℹ️  Tables ordered by foreign key dependencies\n-- Tables with no dependencies are created first\n-- (Circular dependency tables are handled separately at the end)\n\n"
       else "") ++
      tablesSQLBody meta.tables diff
        (((topologicalSort (buildDependencyGraph diff.tablesOnlyInSource meta)).sorted.filter
          (fun k =>
            !(topologicalSort
                (buildDependencyGraph diff.tablesOnlyInSource meta)).remaining.contains k)).map
          keyToRef)
        isSourceToTarget ++
      circularSQLSpec
        (topologicalSort (buildDependencyGraph diff.tablesOnlyInSource meta)).remaining
        meta
        (findStronglyConnectedComponents (buildDependencyGraph diff.tablesOnlyInSource meta))) ∧
    (∀ (ct : List String) (cy : List (List String)),
      generateCircularDependencySQL ct meta cy = circularSQLSpec ct meta cy) := by
  have hspec : ∀ (ct : List String) (cy : List (List String)),
      generateCircularDependencySQL ct meta cy = circularSQLSpec ct meta cy := by
    intro ct cy
    rfl
  refine ⟨?_, hspec⟩
  have hpos : decide (diff.tablesOnlyInSource.length > 0) = true := by
    rcases hl : diff.tablesOnlyInSource with _ | ⟨y, ys⟩
    · rw [hl] at hcyc
      have hb : buildDependencyGraph [] meta = [] := rfl
      rw [hb] at hcyc
      exact absurd hcyc (by decide)
    · simp
  have hne := generateCircularDependencySQL_ne_empty
    (topologicalSort (buildDependencyGraph diff.tablesOnlyInSource meta)).remaining meta
    (findStronglyConnectedComponents (buildDependencyGraph diff.tablesOnlyInSource meta))
  have hneSpec : (circularSQLSpec
      (topologicalSort (buildDependencyGraph diff.tablesOnlyInSource meta)).remaining meta
      (findStronglyConnectedComponents
        (buildDependencyGraph diff.tablesOnlyInSource meta)) != "") = true := by
    rw [← hspec]
    simpa using hne
  unfold generateTablesSQL
  simp only [hpos, Bool.and_true, Bool.true_and, if_true, hcyc, hspec, hneSpec,
    Bool.or_true]

/-- C2 (witness): the two-phase decomposition applied to a concrete snapshot
with a two-table dependency cycle. -/
theorem generateTablesSQL_circular_two_phase_witness :
    generateTablesSQL c2Diff c2Meta true true true =
      "-- ============================================================\n-- TABLES\n-- Table structures with columns only\n-- ============================================================\n\n" ++
      (if decide
          ((topologicalSort (buildDependencyGraph c2Diff.tablesOnlyInSource c2Meta)).sorted.length
            > 0)
       then
        "-- ℹ️  Tables ordered by foreign key dependencies\n-- Tables with no dependencies are created first\n-- (Circular dependency tables are handled separately at the end)\n\n"
       else "") ++
      tablesSQLBody c2Meta.tables c2Diff
        (((topologicalSort (buildDependencyGraph c2Diff.tablesOnlyInSource c2Meta)).sorted.filter
          (fun k =>
            !(topologicalSort
                (buildDependencyGraph c2Diff.tablesOnlyInSource c2Meta)).remaining.contains k)).map
          keyToRef)
        true ++
      circularSQLSpec
        (topologicalSort (buildDependencyGraph c2Diff.tablesOnlyInSource c2Meta)).remaining
        c2Meta
        (findStronglyConnectedComponents
          (buildDependencyGraph c2Diff.tablesOnlyInSource c2Meta)) :=
  (generateTablesSQL_circular_two_phase c2Diff c2Meta true (by decide)).1

/-- C3 (counterexample): two UNIQUE constraints with identical (empty) sorted
column sets and different names are BOTH reported — the code's
`columns.length > 0` guard routes empty-column UNIQUE constraints to the
unconditional name-based fallback, so the claim as stated fails here. -/
theorem computeTableDiff_unique_empty_columns_reported :
    c3EmptySrcConstraint.constraint_type = "UNIQUE" ∧
    c3EmptyTgtConstraint.constraint_type = "UNIQUE" ∧
    c3EmptySrcConstraint.columns = Option.some [] ∧
    c3EmptyTgtConstraint.columns = Option.some [] ∧
    sortStrings [] = sortStrings ([] : List String) ∧
    c3EmptySrcConstraint.constraint_name ≠ c3EmptyTgtConstraint.constraint_name ∧
    c3EmptySrcConstraint ∈
      (computeTableDiff c3EmptySrcTable c3EmptyTgtTable).constraintsOnlyInSource ∧
    c3EmptyTgtConstraint ∈
      (computeTableDiff c3EmptySrcTable c3EmptyTgtTable).constraintsOnlyInTarget := by
  decide

/-- C4 (counterexample): a CHECK constraint with an empty clause string and a
CHECK constraint with a whitespace clause normalize to the same text ("") yet
are BOTH reported under different names — the code's truthiness guard
`cInfo.check_clause` sends empty-clause constraints to the name-based
fallback and skips them as equivalence partners, so the claim as stated fails
here. -/
theorem computeTableDiff_check_empty_clause_reported :
    c4EmptySrcConstraint.constraint_type = "CHECK" ∧
    c4EmptyTgtConstraint.constraint_type = "CHECK" ∧
    c4EmptySrcConstraint.check_clause = Option.some "" ∧
    c4EmptyTgtConstraint.check_clause = Option.some " " ∧
    normalizeCheckClause c4EmptySrcConstraint.check_clause =
      normalizeCheckClause c4EmptyTgtConstraint.check_clause ∧
    c4EmptySrcConstraint.constraint_name ≠ c4EmptyTgtConstraint.constraint_name ∧
    c4EmptySrcConstraint ∈
      (computeTableDiff c4EmptySrcTable c4EmptyTgtTable).constraintsOnlyInSource ∧
    c4EmptyTgtConstraint ∈
      (computeTableDiff c4EmptySrcTable c4EmptyTgtTable).constraintsOnlyInTarget := by
  decide

end DbDump
